import Mathlib

/-!
Shallow embedding of the T16 configuration-integrity subsystem
(src/Libs/Validation) and proofs about it.

Machine integers are modelled as `Nat` (`Int` for the signed `int8_t`
custom-scale entries).  The `crc32` routine is declared in
`DataIntegrity.hpp` but its definition is not part of this source slice;
every structure that stores crc32 checksums is therefore parameterised by
an abstract checksum function `chk : T → Nat` standing for
`crc32 ∘ byte-encoding`.  `memcmp` equality of two values of the same
struct type is modelled as structural equality (the byte encoding of a
fixed-layout struct is injective).
-/

namespace T16

/-- Hardware variants, from `hardware_config.hpp`. -/
inductive HardwareVariant
  | T16
  | T32
  | T64
deriving DecidableEq

/-- Validation levels, from `ConfigurationValidator.hpp`. -/
inductive ValidationLevel
  | BASIC
  | STANDARD
  | COMPREHENSIVE
  | PARANOID
deriving DecidableEq

/-- Error kinds, from `DataIntegrity.hpp` (`enum class ValidationError`). -/
inductive ValidationError
  | NONE
  | INVALID_MAGIC
  | VERSION_MISMATCH
  | REPLAY_ATTACK
  | STALE_MESSAGE
  | OUT_OF_ORDER
  | SIZE_MISMATCH
  | CHECKSUM_FAILURE
  | INVALID_MIDI_CHANNEL
  | INVALID_SCALE
  | INVALID_OCTAVE
  | INVALID_CC_ID
  | INVALID_SCALE_NOTE
  | HARDWARE_INCOMPATIBLE
  | FIRMWARE_TOO_OLD
  | OUT_OF_RANGE
  | CUSTOM_VALIDATION_FAILED
deriving DecidableEq

/-- Warning kinds, from `DataIntegrity.hpp`. -/
inductive ValidationWarning
  | NONE
  | CHANNEL_CONFLICT
  | DUPLICATE_CC_ID
  | UNKNOWN_PARAMETER
  | DEPRECATED_PARAMETER
deriving DecidableEq

/-- Warning severities, from `DataIntegrity.hpp`. -/
inductive WarningLevel
  | WARN_LOW
  | MODERATE
  | WARN_HIGH
deriving DecidableEq

/-- The `location` sub-struct of `ValidationErrorDetail`. -/
structure ErrorLocation where
  bank : Nat := 0
  parameter : Option String := none
  index : Nat := 0
deriving DecidableEq

/-- `ValidationErrorDetail` from `DataIntegrity.hpp`; the `validRange`
pair is flattened into two fields. -/
structure ValidationErrorDetail where
  type : ValidationError
  location : ErrorLocation := {}
  currentValue : Nat := 0
  validRangeMin : Nat := 0
  validRangeMax : Nat := 0
  isAutoFixable : Bool := false
  suggestedFix : Option String := none
  message : Option String := none
deriving DecidableEq

/-- `ValidationWarningDetail` from `DataIntegrity.hpp`. -/
structure ValidationWarningDetail where
  type : ValidationWarning
  message : Option String := none
  location : ErrorLocation := {}
  severity : WarningLevel := .WARN_LOW
deriving DecidableEq

/-- `ValidationResult` from `DataIntegrity.hpp`. -/
structure ValidationResult where
  isValid : Bool := true
  errors : List ValidationErrorDetail := []
  warnings : List ValidationWarningDetail := []
  suggestedFixes : List String := []
deriving DecidableEq

/-- `ValidationResult::addError`. -/
def ValidationResult.addError (r : ValidationResult) (e : ValidationErrorDetail) :
    ValidationResult :=
  { r with
    errors := r.errors ++ [e]
    isValid := false
    suggestedFixes := r.suggestedFixes ++
      (match e.suggestedFix with | some f => [f] | none => []) }

/-- `ValidationResult::addWarning`. -/
def ValidationResult.addWarning (r : ValidationResult) (w : ValidationWarningDetail) :
    ValidationResult :=
  { r with warnings := r.warnings ++ [w] }

/-- `ValidationResult::canAutoFix`: false on an empty error list, else
true iff every error is auto-fixable. -/
def ValidationResult.canAutoFix (r : ValidationResult) : Bool :=
  !r.errors.isEmpty && r.errors.all (·.isAutoFixable)

/-- `ConfigurationData` as used by the validation subsystem.  The
`sensitivity` field is read by `ConfigurationValidator` and the recovery
code although it is absent from the `Configuration.hpp` struct in this
slice; its factory value (1) is used as its default. -/
structure ConfigurationData where
  version : Nat := 1
  mode : Nat := 0
  sensitivity : Nat := 1
  brightness : Nat := 6
  palette : Nat := 0
  midi_trs : Nat := 0
  trs_type : Nat := 0
  passthrough : Nat := 0
  midi_ble : Nat := 0
  custom_scale1 : List Int := List.replicate 16 0
  custom_scale2 : List Int := List.replicate 16 0
  hasChanged : Bool := false
deriving DecidableEq

/-- `CalibrationData` from `Configuration.hpp`: 16 pairs of raw ADC bounds. -/
structure CalibrationData where
  minVal : List Nat := List.replicate 16 0
  maxVal : List Nat := List.replicate 16 0
deriving DecidableEq

/-- `KeyModeData` from `Configuration.hpp` (plus the `koala_mode` field the
validator reads). -/
structure KeyModeData where
  palette : Nat := 0
  channel : Nat := 1
  scale : Nat := 0
  base_octave : Nat := 0
  base_note : Nat := 24
  velocity_curve : Nat := 1
  aftertouch_curve : Nat := 1
  flip_x : Nat := 0
  flip_y : Nat := 0
  koala_mode : Nat := 0
  hasChanged : Bool := false
deriving DecidableEq

/-- `ControlChangeData` from `Configuration.hpp` (CC_AMT = 8 entries). -/
structure ControlChangeData where
  channel : List Nat := List.replicate 8 1
  id : List Nat := List.replicate 8 0
  hasChanged : Bool := false
deriving DecidableEq

/-- `ConfigurationValidator::ValidationContext`. -/
structure ValidationContext where
  variant : HardwareVariant := .T16
  firmwareVersion : Nat := 102
  strictMode : Bool := true
  level : ValidationLevel := .COMPREHENSIVE
deriving DecidableEq

/-- `clampToRange` helper from `ConfigurationValidator.cpp`. -/
def clampToRange (value lo hi : Nat) : Nat :=
  if value < lo then lo else if value > hi then hi else value

/-- `ConfigurationValidator::validateCustomScale`.  A scale whose first
entry is `0xFF` (as `int8_t`: −1) is treated as undefined and skipped; the
out-of-range `currentValue`/`validRange` fields reproduce the C++
`uint32_t` casts of the signed values.  `scaleStep` is one iteration of
its note loop. -/
def scaleStep (scale : List Int) (scaleNum : Nat) (r : ValidationResult)
    (i : Nat) : ValidationResult :=
  let note := scale.getD i 0
  if ¬(-24 ≤ note ∧ note ≤ 24) then
    r.addError
      { type := .INVALID_SCALE_NOTE
        location := { parameter := some (if scaleNum = 1 then "custom_scale1" else "custom_scale2")
                      index := i }
        currentValue := (note % (2 ^ 32 : Int)).toNat
        validRangeMin := ((-24 : Int) % (2 ^ 32 : Int)).toNat
        validRangeMax := 24
        isAutoFixable := true
        suggestedFix := some "Clamp to reasonable range [-24, +24]" }
  else r

/-- Body of `validateCustomScale`. -/
def validateCustomScale (scale : List Int) (scaleNum : Nat)
    (_context : ValidationContext) : ValidationResult :=
  if scale.getD 0 0 = -1 then {} else
  (List.range 16).foldl (scaleStep scale scaleNum) {}

/-- `ConfigurationValidator::validateBasicRanges` (palette vs BANK_AMT = 4). -/
def validateBasicRanges (config : ConfigurationData) (result : ValidationResult) :
    ValidationResult :=
  if config.palette ≥ 4 then
    result.addError
      { type := .OUT_OF_RANGE
        location := { parameter := some "palette" }
        currentValue := config.palette
        validRangeMin := 0
        validRangeMax := 3
        isAutoFixable := true
        suggestedFix := some "Reset to bank 0" }
  else result

/-- `ConfigurationValidator::validateConfiguration`.  Note that the two
final assignments `result = validateCustomScale(...)` in the C++ replace
(rather than merge into) the accumulated result; the embedding reproduces
those overwrites with shadowing `let`s. -/
def validateConfiguration (config : ConfigurationData) (context : ValidationContext) :
    ValidationResult :=
  if context.level = .BASIC then
    if config.version < 102 then
      ValidationResult.addError {}
        { type := .FIRMWARE_TOO_OLD
          currentValue := config.version
          validRangeMin := 102
          validRangeMax := 255
          isAutoFixable := false
          message := some "Configuration requires newer firmware" }
    else {}
  else
    let result : ValidationResult := {}
    let result := validateBasicRanges config result
    let result := if config.mode > 4 then
      result.addError
        { type := .OUT_OF_RANGE, location := { parameter := some "mode" }
          currentValue := config.mode, validRangeMin := 0, validRangeMax := 4
          isAutoFixable := true, suggestedFix := some "Reset to keyboard mode (0)" }
      else result
    let result := if config.sensitivity > 4 then
      result.addError
        { type := .OUT_OF_RANGE, location := { parameter := some "sensitivity" }
          currentValue := config.sensitivity, validRangeMin := 0, validRangeMax := 4
          isAutoFixable := true, suggestedFix := some "Reset to default sensitivity (1)" }
      else result
    let result := if config.brightness > 15 then
      result.addError
        { type := .OUT_OF_RANGE, location := { parameter := some "brightness" }
          currentValue := config.brightness, validRangeMin := 0, validRangeMax := 15
          isAutoFixable := true, suggestedFix := some "Clamp to maximum brightness (15)" }
      else result
    let result := if config.midi_trs > 1 then
      result.addError
        { type := .OUT_OF_RANGE, location := { parameter := some "midi_trs" }
          currentValue := config.midi_trs, validRangeMin := 0, validRangeMax := 1
          isAutoFixable := true, suggestedFix := some "Reset to disabled (0)" }
      else result
    let result := if config.trs_type > 1 then
      result.addError
        { type := .OUT_OF_RANGE, location := { parameter := some "trs_type" }
          currentValue := config.trs_type, validRangeMin := 0, validRangeMax := 1
          isAutoFixable := true, suggestedFix := some "Reset to Type A (0)" }
      else result
    let result := if config.passthrough > 1 then
      result.addError
        { type := .OUT_OF_RANGE, location := { parameter := some "passthrough" }
          currentValue := config.passthrough, validRangeMin := 0, validRangeMax := 1
          isAutoFixable := true, suggestedFix := some "Reset to disabled (0)" }
      else result
    let result := if config.midi_ble > 1 then
      result.addError
        { type := .OUT_OF_RANGE, location := { parameter := some "midi_ble" }
          currentValue := config.midi_ble, validRangeMin := 0, validRangeMax := 1
          isAutoFixable := true, suggestedFix := some "Reset to disabled (0)" }
      else result
    -- C++: `result = validateCustomScale(config.custom_scale1, 1, context);`
    -- `result = validateCustomScale(config.custom_scale2, 2, context);`
    -- both plain assignments, discarding everything accumulated above.
    let result := validateCustomScale config.custom_scale1 1 context
    let result := validateCustomScale config.custom_scale2 2 context
    result

/-- One iteration of the key loop of
`ConfigurationValidator::validateCalibrationData`. -/
def calibStep (calibration : CalibrationData) (i : Nat) (r : ValidationResult) :
    ValidationResult :=
  let mn := calibration.minVal.getD i 0
  let mx := calibration.maxVal.getD i 0
  let r := if mn > mx then
      r.addError
        { type := .OUT_OF_RANGE
          location := { parameter := some "calibration", index := i }
          currentValue := mn
          validRangeMin := 0
          validRangeMax := mx
          isAutoFixable := false
          message := some "Calibration min value exceeds max value" }
    else r
  let r := if mx > 4095 then
      r.addError
        { type := .OUT_OF_RANGE
          location := { parameter := some "calibration_max", index := i }
          currentValue := mx
          validRangeMin := 0
          validRangeMax := 4095
          isAutoFixable := true
          suggestedFix := some "Clamp to ADC maximum (4095)" }
    else r
  -- `uint16_t range = maxVal[i] - minVal[i];` wraps modulo 2^16
  let range := ((mx % 65536) + 65536 - (mn % 65536)) % 65536
  if range < 100 ∧ mx > 0 then
    r.addWarning
      { type := .UNKNOWN_PARAMETER
        message := some "Suspiciously narrow calibration range"
        location := { parameter := some "calibration", index := i }
        severity := .MODERATE }
  else r

/-- The exact error detail `validateCalibrationData` records for an
inverted (`min > max`) calibration pair at key `i`. -/
def calibInvErr (calibration : CalibrationData) (i : Nat) : ValidationErrorDetail :=
  { type := .OUT_OF_RANGE
    location := { parameter := some "calibration", index := i }
    currentValue := calibration.minVal.getD i 0
    validRangeMin := 0
    validRangeMax := calibration.maxVal.getD i 0
    isAutoFixable := false
    message := some "Calibration min value exceeds max value" }

/-- The loop of `validateCalibrationData`, counting `fuel` iterations up
from index `i`. -/
def calibLoop (calibration : CalibrationData) : Nat → Nat → ValidationResult → ValidationResult
  | 0, _, r => r
  | fuel + 1, i, r => calibLoop calibration fuel (i + 1) (calibStep calibration i r)

/-- `ConfigurationValidator::validateCalibrationData`: loops over
`i < numKeys && i < 16` (CalibrationData only has 16 entries). -/
def validateCalibrationData (calibration : CalibrationData)
    (context : ValidationContext) : ValidationResult :=
  let numKeys : Nat :=
    match context.variant with
    | .T32 => 32
    | .T64 => 64
    | .T16 => 16
  calibLoop calibration (min numKeys 16) 0 {}

/-- `ConfigurationValidator::autoFixConfiguration`: clamps exactly the
device-wide fields named by auto-fixable errors, then records `hasChanged`. -/
def autoFixConfiguration (config : ConfigurationData) (result : ValidationResult) :
    Bool × ConfigurationData :=
  if ¬result.canAutoFix then (false, config) else
  let (fixed, c) := result.errors.foldl (fun acc e =>
    let (fixed, c) := acc
    if ¬e.isAutoFixable then acc else
    match e.location.parameter with
    | some "mode" => (true, { c with mode := clampToRange c.mode 0 4 })
    | some "sensitivity" => (true, { c with sensitivity := clampToRange c.sensitivity 0 4 })
    | some "brightness" => (true, { c with brightness := clampToRange c.brightness 0 15 })
    | some "palette" => (true, { c with palette := clampToRange c.palette 0 3 })
    | some "midi_trs" => (true, { c with midi_trs := clampToRange c.midi_trs 0 1 })
    | some "trs_type" => (true, { c with trs_type := clampToRange c.trs_type 0 1 })
    | some "passthrough" => (true, { c with passthrough := clampToRange c.passthrough 0 1 })
    | some "midi_ble" => (true, { c with midi_ble := clampToRange c.midi_ble 0 1 })
    | _ => (fixed, c)) (false, config)
  (fixed, { c with hasChanged := fixed })

/-- Test calibration: key 0 has inverted bounds (min 5 > max 0). -/
def c9cal : CalibrationData :=
  { minVal := 5 :: List.replicate 15 0, maxVal := List.replicate 16 0 }

/-- Test configuration for the device-wide range checks: factory defaults
except `mode = 5`, which is out of range (`mode > 4`). -/
def c3config : ConfigurationData :=
  { version := 102, mode := 5, sensitivity := 1, brightness := 6, palette := 0
    midi_trs := 0, trs_type := 0, passthrough := 0, midi_ble := 0
    custom_scale1 := (List.range 16).map Int.ofNat
    custom_scale2 := (List.range 16).map Int.ofNat
    hasChanged := false }

/-! ## TripleRedundant (CriticalDataProtector.hpp) -/

/-- `TripleRedundant<T>`: three copies of `T`, three stored crc32
checksums, and a generation counter. -/
structure TripleRedundant (T : Type) where
  primary : T
  backup1 : T
  backup2 : T
  primaryChecksum : Nat
  backup1Checksum : Nat
  backup2Checksum : Nat
  generationCounter : Nat
deriving DecidableEq

namespace TripleRedundant

variable {T : Type} [DecidableEq T]

/-- `updateChecksums()`: recompute all three stored checksums. -/
def updateChecksums (chk : T → Nat) (s : TripleRedundant T) : TripleRedundant T :=
  { s with
    primaryChecksum := chk s.primary
    backup1Checksum := chk s.backup1
    backup2Checksum := chk s.backup2 }

/-- The `TripleRedundant()` constructor: all slots `T{}` (= `d`), counter
0, checksums freshly computed. -/
def init (chk : T → Nat) (d : T) : TripleRedundant T :=
  updateChecksums chk
    { primary := d, backup1 := d, backup2 := d
      primaryChecksum := 0, backup1Checksum := 0, backup2Checksum := 0
      generationCounter := 0 }

/-- `setValue(v)`: write `v` to all three slots, bump the generation
counter, recompute checksums. -/
def setValue (chk : T → Nat) (s : TripleRedundant T) (v : T) : TripleRedundant T :=
  updateChecksums chk
    { s with primary := v, backup1 := v, backup2 := v
             generationCounter := s.generationCounter + 1 }

/-- Per-slot validity: stored checksum equals a freshly computed one. -/
def pValid (chk : T → Nat) (s : TripleRedundant T) : Prop :=
  chk s.primary = s.primaryChecksum

/-- Validity of the first backup slot. -/
def b1Valid (chk : T → Nat) (s : TripleRedundant T) : Prop :=
  chk s.backup1 = s.backup1Checksum

/-- Validity of the second backup slot. -/
def b2Valid (chk : T → Nat) (s : TripleRedundant T) : Prop :=
  chk s.backup2 = s.backup2Checksum

instance (chk : T → Nat) (s : TripleRedundant T) : Decidable (pValid chk s) :=
  inferInstanceAs (Decidable (_ = _))

instance (chk : T → Nat) (s : TripleRedundant T) : Decidable (b1Valid chk s) :=
  inferInstanceAs (Decidable (_ = _))

instance (chk : T → Nat) (s : TripleRedundant T) : Decidable (b2Valid chk s) :=
  inferInstanceAs (Decidable (_ = _))

/-- `repairFromPrimary()`. -/
def repairFromPrimary (chk : T → Nat) (s : TripleRedundant T) : TripleRedundant T :=
  updateChecksums chk { s with backup1 := s.primary, backup2 := s.primary }

/-- `repairFromBackup1()`. -/
def repairFromBackup1 (chk : T → Nat) (s : TripleRedundant T) : TripleRedundant T :=
  updateChecksums chk { s with primary := s.backup1, backup2 := s.backup1 }

/-- `repairFromBackup2()`. -/
def repairFromBackup2 (chk : T → Nat) (s : TripleRedundant T) : TripleRedundant T :=
  updateChecksums chk { s with primary := s.backup2, backup1 := s.backup2 }

/-- `getMajorityValue()`.  The C++ method is `const` but repairs the cell
through a `const_cast` when exactly one slot is valid; the embedding
returns the (value, post-call state) pair.  Branch order matches the
source: zero-valid short circuit, all-valid-and-equal, the three majority
pairs (which return WITHOUT repairing the third slot), the three
single-valid repair paths, and the unreachable default. -/
def getMajorityValue (chk : T → Nat) (d : T) (s : TripleRedundant T) :
    T × TripleRedundant T :=
  if (if pValid chk s then 1 else 0) + (if b1Valid chk s then 1 else 0) +
      (if b2Valid chk s then 1 else 0) = 0 then (d, s)
  else if pValid chk s ∧ b1Valid chk s ∧ b2Valid chk s ∧
      s.primary = s.backup1 ∧ s.primary = s.backup2 then (s.primary, s)
  else if pValid chk s ∧ b1Valid chk s ∧ s.primary = s.backup1 then (s.primary, s)
  else if pValid chk s ∧ b2Valid chk s ∧ s.primary = s.backup2 then (s.primary, s)
  else if b1Valid chk s ∧ b2Valid chk s ∧ s.backup1 = s.backup2 then (s.backup1, s)
  else if pValid chk s then (s.primary, repairFromPrimary chk s)
  else if b1Valid chk s then (s.backup1, repairFromBackup1 chk s)
  else if b2Valid chk s then (s.backup2, repairFromBackup2 chk s)
  else (d, s)

/-- `isCorrupted()`: true whenever any slot fails checksum verification. -/
def isCorrupted (chk : T → Nat) (s : TripleRedundant T) : Bool :=
  !(decide (pValid chk s) && decide (b1Valid chk s) && decide (b2Valid chk s))

/-- `getValidCopyCount()`. -/
def getValidCopyCount (chk : T → Nat) (s : TripleRedundant T) : Nat :=
  (if pValid chk s then 1 else 0) + (if b1Valid chk s then 1 else 0) +
    (if b2Valid chk s then 1 else 0)

end TripleRedundant

/-- Fault model: corruption of the primary slot in place — its stored
value and/or stored checksum is replaced (a bit flip is the special case
that changes exactly one byte). -/
def corruptPrimary {T : Type} (s : TripleRedundant T) (w : T) (c : Nat) :
    TripleRedundant T :=
  { s with primary := w, primaryChecksum := c }

/-- Fault model: corruption of the first backup slot. -/
def corruptBackup1 {T : Type} (s : TripleRedundant T) (w : T) (c : Nat) :
    TripleRedundant T :=
  { s with backup1 := w, backup1Checksum := c }

/-- Fault model: corruption of the second backup slot. -/
def corruptBackup2 {T : Type} (s : TripleRedundant T) (w : T) (c : Nat) :
    TripleRedundant T :=
  { s with backup2 := w, backup2Checksum := c }

/-- Concrete triple-corrupted test cell: all three stored checksums (9)
disagree with the freshly computed ones under `chk = id`. -/
def c8state : TripleRedundant Nat :=
  { primary := 1, backup1 := 2, backup2 := 3
    primaryChecksum := 9, backup1Checksum := 9, backup2Checksum := 9
    generationCounter := 0 }

/-! ## CriticalDataProtector (CriticalDataProtector.hpp/.cpp) -/

/-- The four `TripleRedundant` cells of `CriticalData`, in declaration
order.  The structure-level crc32 covers exactly the bytes of these cells
(`offsetof(CriticalData, structureChecksum)` ends before the checksum and
magic fields). -/
abbrev CriticalCells :=
  TripleRedundant CalibrationData × TripleRedundant ConfigurationData ×
    TripleRedundant Nat × TripleRedundant Nat

/-- The abstract checksum environment: one `crc32 ∘ byte-encoding`
function per checksummed type. -/
structure ChkEnv where
  cal : CalibrationData → Nat
  cfg : ConfigurationData → Nat
  u32 : Nat → Nat
  u8 : Nat → Nat
  struc : CriticalCells → Nat
  snap : ConfigurationData × CalibrationData × Nat → Nat

/-- `CriticalDataProtector::CriticalData`. -/
structure CriticalData where
  calibration : TripleRedundant CalibrationData
  configuration : TripleRedundant ConfigurationData
  deviceSerial : TripleRedundant Nat
  firmwareVersion : TripleRedundant Nat
  structureChecksum : Nat
  magic : Nat := 0x54313643
deriving DecidableEq

/-- The cell prefix covered by the structure checksum. -/
def CriticalData.cells (st : CriticalData) : CriticalCells :=
  (st.calibration, st.configuration, st.deviceSerial, st.firmwareVersion)

/-- `CriticalDataProtector::updateStructureChecksum`. -/
def updateStructureChecksum (env : ChkEnv) (st : CriticalData) : CriticalData :=
  { st with structureChecksum := env.struc st.cells }

/-- `CriticalDataProtector::verifyStructureChecksum`. -/
def verifyStructureChecksum (env : ChkEnv) (st : CriticalData) : Bool :=
  env.struc st.cells == st.structureChecksum

/-- `CriticalDataProtector::getFactoryConfiguration`: version 102, mode 0,
sensitivity 1, brightness 6, palette 0, all MIDI flags 0, both custom
scales chromatic (entry i = i). -/
def getFactoryConfiguration : ConfigurationData :=
  { version := 102, mode := 0, sensitivity := 1, brightness := 6, palette := 0
    midi_trs := 0, trs_type := 0, passthrough := 0, midi_ble := 0
    custom_scale1 := (List.range 16).map Int.ofNat
    custom_scale2 := (List.range 16).map Int.ofNat
    hasChanged := false }

/-- `CriticalDataProtector::getFactoryCalibration`: minVal 0, maxVal 4095
for all 16 keys. -/
def getFactoryCalibration : CalibrationData :=
  { minVal := List.replicate 16 0, maxVal := List.replicate 16 4095 }

/-- The `CriticalDataProtector()` constructor: factory configuration and
calibration, serial 0, firmware version 102, structure checksum updated. -/
def protectorInit (env : ChkEnv) : CriticalData :=
  updateStructureChecksum env
    { calibration := (TripleRedundant.init env.cal {}).setValue env.cal getFactoryCalibration
      configuration := (TripleRedundant.init env.cfg {}).setValue env.cfg getFactoryConfiguration
      deviceSerial := (TripleRedundant.init env.u32 0).setValue env.u32 0
      firmwareVersion := (TripleRedundant.init env.u8 0).setValue env.u8 102
      structureChecksum := 0 }

/-- `getConfiguration()`: a majority-vote read of the configuration cell.
The C++ method is `const` but the cell may self-repair through the
`const_cast` inside `getMajorityValue`; the post-read state is returned
alongside the value. -/
def getConfiguration (env : ChkEnv) (st : CriticalData) :
    ConfigurationData × CriticalData :=
  let r := st.configuration.getMajorityValue env.cfg {}
  (r.1, { st with configuration := r.2 })

/-- `getCalibration()`. -/
def getCalibration (env : ChkEnv) (st : CriticalData) :
    CalibrationData × CriticalData :=
  let r := st.calibration.getMajorityValue env.cal {}
  (r.1, { st with calibration := r.2 })

/-- `getDeviceSerial()`. -/
def getDeviceSerial (env : ChkEnv) (st : CriticalData) : Nat × CriticalData :=
  let r := st.deviceSerial.getMajorityValue env.u32 0
  (r.1, { st with deviceSerial := r.2 })

/-- `getFirmwareVersion()`. -/
def getFirmwareVersion (env : ChkEnv) (st : CriticalData) : Nat × CriticalData :=
  let r := st.firmwareVersion.getMajorityValue env.u8 0
  (r.1, { st with firmwareVersion := r.2 })

/-- `CriticalDataProtector::getCurrentContext`: hard-coded T16 variant,
strict mode, COMPREHENSIVE level, firmware version read from the cell. -/
def getCurrentContext (env : ChkEnv) (st : CriticalData) :
    ValidationContext × CriticalData :=
  let r := getFirmwareVersion env st
  ({ variant := .T16, firmwareVersion := r.1, strictMode := true
     level := .COMPREHENSIVE }, r.2)

/-- `CriticalDataProtector::ConfigurationTransaction` (its own fields;
the protector state is passed explicitly). -/
structure ConfigurationTransaction where
  originalConfig : ConfigurationData
  originalCalibration : CalibrationData
  committed : Bool := false
  configModified : Bool := false
  calibrationModified : Bool := false
deriving DecidableEq

/-- The transaction constructor (`beginTransaction`): snapshot the current
configuration and calibration. -/
def beginTransaction (env : ChkEnv) (st : CriticalData) :
    ConfigurationTransaction × CriticalData :=
  let rc := getConfiguration env st
  let rl := getCalibration env rc.2
  ({ originalConfig := rc.1, originalCalibration := rl.1 }, rl.2)

namespace ConfigurationTransaction

/-- `ConfigurationTransaction::updateConfiguration`: validate the
candidate in the protector's current context, reject when invalid and not
auto-fixable, auto-fix when possible, then apply via `setValue`. -/
def updateConfiguration (env : ChkEnv) (t : ConfigurationTransaction)
    (st : CriticalData) (newConfig : ConfigurationData) :
    Bool × ConfigurationTransaction × CriticalData :=
  let rctx := getCurrentContext env st
  let validation := validateConfiguration newConfig rctx.1
  if ¬validation.isValid ∧ ¬validation.canAutoFix then (false, t, rctx.2)
  else
    let fix :=
      if ¬validation.isValid ∧ validation.canAutoFix then
        autoFixConfiguration newConfig validation
      else (true, newConfig)
    if ¬fix.1 then (false, t, rctx.2)
    else
      (true, { t with configModified := true },
        { rctx.2 with configuration := rctx.2.configuration.setValue env.cfg fix.2 })

/-- `ConfigurationTransaction::updateCalibration`. -/
def updateCalibration (env : ChkEnv) (t : ConfigurationTransaction)
    (st : CriticalData) (newCalibration : CalibrationData) :
    Bool × ConfigurationTransaction × CriticalData :=
  let rctx := getCurrentContext env st
  let validation := validateCalibrationData newCalibration rctx.1
  if ¬validation.isValid then (false, t, rctx.2)
  else
    (true, { t with calibrationModified := true },
      { rctx.2 with calibration := rctx.2.calibration.setValue env.cal newCalibration })

/-- `ConfigurationTransaction::rollback`: restore every modified cell to
the snapshot captured at construction. -/
def rollback (env : ChkEnv) (t : ConfigurationTransaction) (st : CriticalData) :
    CriticalData :=
  let st := if t.configModified then
      { st with configuration := st.configuration.setValue env.cfg t.originalConfig }
    else st
  if t.calibrationModified then
    { st with calibration := st.calibration.setValue env.cal t.originalCalibration }
  else st

/-- `ConfigurationTransaction::commit`: mark committed, refresh the
structure checksum, persist (file I/O, no further in-memory change). -/
def commit (env : ChkEnv) (t : ConfigurationTransaction) (st : CriticalData) :
    ConfigurationTransaction × CriticalData :=
  ({ t with committed := true }, updateStructureChecksum env st)

/-- The `~ConfigurationTransaction()` destructor: roll back unless
committed. -/
def destroy (env : ChkEnv) (t : ConfigurationTransaction) (st : CriticalData) :
    CriticalData :=
  if ¬t.committed then rollback env t st else st

end ConfigurationTransaction

/-- `CriticalDataProtector::factoryReset(preserveCalibration)`. -/
def factoryReset (env : ChkEnv) (st : CriticalData) (preserveCalibration : Bool) :
    CriticalData :=
  let rs := getDeviceSerial env st
  let rc := if preserveCalibration then getCalibration env rs.2
    else (getFactoryCalibration, rs.2)
  let st2 := rc.2
  let st3 := { st2 with configuration := st2.configuration.setValue env.cfg getFactoryConfiguration }
  let st4 := { st3 with calibration := st3.calibration.setValue env.cal rc.1 }
  let st5 := { st4 with deviceSerial := st4.deviceSerial.setValue env.u32 rs.1 }
  let st6 := { st5 with firmwareVersion := st5.firmwareVersion.setValue env.u8 102 }
  updateStructureChecksum env st6

/-- `CriticalDataProtector::loadCriticalData`.  The three file reads are
abstracted as `Option CriticalData` (`none` = missing file or short read).
As in the source, the primary copy is "checked" by calling
`verifyStructureChecksum()` — which inspects the in-memory member, not the
copy just read — and the two backups are checked against the magic value
only.  `memcmp` of two whole structures is structural equality. -/
def loadCriticalData (env : ChkEnv) (st : CriticalData)
    (primaryRead backup1Read backup2Read : Option CriticalData) :
    Bool × CriticalData :=
  let dfl : CriticalData :=
    { calibration := TripleRedundant.init env.cal {}
      configuration := TripleRedundant.init env.cfg {}
      deviceSerial := TripleRedundant.init env.u32 0
      firmwareVersion := TripleRedundant.init env.u8 0
      structureChecksum := 0 }
  let primaryData := primaryRead.getD dfl
  let backup1Data := backup1Read.getD dfl
  let backup2Data := backup2Read.getD dfl
  let primaryValid := primaryRead.isSome &&
    (primaryData.magic == 0x54313643 && verifyStructureChecksum env st)
  let backup1Valid := backup1Read.isSome && (backup1Data.magic == 0x54313643)
  let backup2Valid := backup2Read.isSome && (backup2Data.magic == 0x54313643)
  let validCount := (if primaryValid then 1 else 0) + (if backup1Valid then 1 else 0) +
    (if backup2Valid then 1 else 0)
  if validCount = 0 then (false, st)
  else if 2 ≤ validCount ∧ primaryValid ∧ backup1Valid ∧ primaryData = backup1Data then
    (true, primaryData)
  else if 2 ≤ validCount ∧ primaryValid ∧ backup2Valid ∧ primaryData = backup2Data then
    (true, primaryData)
  else if 2 ≤ validCount ∧ backup1Valid ∧ backup2Valid ∧ backup1Data = backup2Data then
    (true, backup1Data)
  else if primaryValid then (true, primaryData)
  else if backup1Valid then (true, backup1Data)
  else if backup2Valid then (true, backup2Data)
  else (false, st)

/-- A concrete checksum environment for closed test vectors.  The
behaviours proved about healthy (uncorrupted) states hold for every
checksum environment, so constant functions suffice to instantiate them. -/
def zeroChk : ChkEnv :=
  { cal := fun _ => 0, cfg := fun _ => 0, u32 := fun _ => 0, u8 := fun _ => 0
    struc := fun _ => 0, snap := fun _ => 0 }

/-- Candidate configuration carrying an error the validator itself marks
non-auto-fixable (at its BASIC level): `version = 0 < 102`
(FIRMWARE_TOO_OLD, `isAutoFixable = false`).  All other fields are factory
values. -/
def c2cand : ConfigurationData :=
  { version := 0, mode := 0, sensitivity := 1, brightness := 6, palette := 0
    midi_trs := 0, trs_type := 0, passthrough := 0, midi_ble := 0
    custom_scale1 := (List.range 16).map Int.ofNat
    custom_scale2 := (List.range 16).map Int.ofNat
    hasChanged := false }

/-- A structurally invalid backup file image: a healthy factory structure
whose `structureChecksum` field (1) disagrees with the checksum of its
cells (`zeroChk.struc` = 0), while the magic is intact. -/
def c5backup : CriticalData := { protectorInit zeroChk with structureChecksum := 1 }

/-! ## ConfigurationRecoverySystem (ConfigurationRecovery.hpp/.cpp) -/

/-- `RecoveryReason` from `ConfigurationRecovery.hpp`. -/
inductive RecoveryReason
  | BEFORE_FIRMWARE_UPDATE
  | BEFORE_CRITICAL_CHANGE
  | PERIODIC_BACKUP
  | USER_REQUEST
  | CORRUPTION_DETECTED
  | VALIDATION_FAILURE
deriving DecidableEq

/-- `RecoveryLevel` from `ConfigurationRecovery.hpp`. -/
inductive RecoveryLevel
  | PARAMETER_RESET
  | BANK_RESET
  | FACTORY_RESET
  | RECOVERY_SNAPSHOT
  | CALIBRATION_PRESERVE
deriving DecidableEq

/-- `RecoveryStats`. -/
structure RecoveryStats where
  totalRecoveries : Nat := 0
  successfulRecoveries : Nat := 0
  failedRecoveries : Nat := 0
  lastRecoveryTimestamp : Nat := 0
  lastRecoveryLevel : RecoveryLevel := .PARAMETER_RESET
deriving DecidableEq

/-- `RecoverySnapshot`. -/
structure RecoverySnapshot where
  config : ConfigurationData
  calibration : CalibrationData
  timestamp : Nat
  checksum : Nat
  reason : RecoveryReason
  description : String
  firmwareVersion : Nat
  isValid : Bool
deriving DecidableEq

/-- The zeroed snapshot produced by the constructor's
`memset(snapshots, 0, sizeof(snapshots))`. -/
def zeroSnapshot : RecoverySnapshot :=
  { config := { version := 0, mode := 0, sensitivity := 0, brightness := 0
                palette := 0, midi_trs := 0, trs_type := 0, passthrough := 0
                midi_ble := 0, custom_scale1 := List.replicate 16 0
                custom_scale2 := List.replicate 16 0, hasChanged := false }
    calibration := {}
    timestamp := 0
    checksum := 0
    reason := .BEFORE_FIRMWARE_UPDATE
    description := ""
    firmwareVersion := 0
    isValid := false }

/-- The globals (`extern ConfigurationData cfg;` etc.) that the recovery
code mutates directly. -/
structure Globals where
  cfg : ConfigurationData
  calibration_data : CalibrationData
  kb_cfg : List KeyModeData
  cc_cfg : List ControlChangeData
deriving DecidableEq

/-- The recovery system's own state. -/
structure RecoveryState where
  snapshots : List RecoverySnapshot := List.replicate 5 zeroSnapshot
  currentSnapshotIndex : Nat := 0
  snapshotCount : Nat := 0
  stats : RecoveryStats := {}
deriving DecidableEq

/-- In-place update of one list element (C array write `a[i] = f a[i]`);
out-of-range indices leave the list unchanged. -/
def modifyAt {α : Type} : List α → Nat → (α → α) → List α
  | [], _, _ => []
  | a :: as, 0, f => f a :: as
  | a :: as, n + 1, f => a :: modifyAt as n f

/-- One iteration of the error loop of
`ConfigurationRecoverySystem::tryParameterRecovery`. -/
def paramStep (acc : Bool × Globals) (e : ValidationErrorDetail) : Bool × Globals :=
  let (recovered, g) := acc
  if ¬e.isAutoFixable then acc else
  match e.location.parameter with
  | some "mode" => (true, { g with cfg := { g.cfg with mode := 0 } })
  | some "sensitivity" => (true, { g with cfg := { g.cfg with sensitivity := 1 } })
  | some "brightness" => (true, { g with cfg := { g.cfg with brightness := 6 } })
  | some "channel" =>
    if e.location.bank < 4 then
      (true, { g with kb_cfg := (modifyAt g.kb_cfg e.location.bank
                 (fun kb => { kb with channel := 1 })) })
    else (recovered, g)
  | some "scale" =>
    if e.location.bank < 4 then
      (true, { g with kb_cfg := (modifyAt g.kb_cfg e.location.bank
                 (fun kb => { kb with scale := 0 })) })
    else (recovered, g)
  | some "cc_id" =>
    if e.location.bank < 4 ∧ e.location.index < 8 then
      (true, { g with cc_cfg := (modifyAt g.cc_cfg e.location.bank
                 (fun cc => { cc with id := (modifyAt cc.id e.location.index
                                (fun _ => 13 + e.location.index)) })) })
    else (recovered, g)
  | _ => (recovered, g)

/-- `ConfigurationRecoverySystem::tryParameterRecovery`: walk the error
list, reset the recognized auto-fixable parameters to their defaults, and
report whether anything was reset. -/
def tryParameterRecovery (validation : ValidationResult) (g : Globals) :
    Bool × Globals :=
  let r := validation.errors.foldl paramStep (false, g)
  if r.1 then (true, { r.2 with cfg := { r.2.cfg with hasChanged := true } })
  else r

/-- `ConfigurationRecoverySystem::verifySnapshotChecksum`: the crc covers
the bytes before the `checksum` field (config, calibration, timestamp). -/
def verifySnapshotChecksum (env : ChkEnv) (s : RecoverySnapshot) : Bool :=
  env.snap (s.config, s.calibration, s.timestamp) == s.checksum

/-- `ConfigurationRecoverySystem::validateSnapshot`: lenient STANDARD-level
re-validation of the snapshot's configuration and calibration. -/
def validateSnapshot (s : RecoverySnapshot) : Bool :=
  let context : ValidationContext :=
    { variant := .T16, firmwareVersion := s.firmwareVersion
      strictMode := false, level := .STANDARD }
  (validateConfiguration s.config context).isValid &&
    (validateCalibrationData s.calibration context).isValid

/-- The newest-to-oldest walk of
`ConfigurationRecoverySystem::trySnapshotRecovery`; `fuel` counts the
remaining iterations (starting at `snapshotCount`), `i` is the loop index. -/
def snapLoop (env : ChkEnv) (r : RecoveryState) (g : Globals) :
    Nat → Nat → Bool × Globals
  | 0, _ => (false, g)
  | fuel + 1, i =>
    let idx := ((r.currentSnapshotIndex + 5) - 1 - i) % 5
    let snapshot := r.snapshots.getD idx zeroSnapshot
    if ¬snapshot.isValid then snapLoop env r g fuel (i + 1)
    else if ¬verifySnapshotChecksum env snapshot then snapLoop env r g fuel (i + 1)
    else if ¬validateSnapshot snapshot then snapLoop env r g fuel (i + 1)
    else
      (true, { g with cfg := { snapshot.config with hasChanged := true }
                      calibration_data := snapshot.calibration })

/-- `ConfigurationRecoverySystem::trySnapshotRecovery`. -/
def trySnapshotRecovery (env : ChkEnv) (r : RecoveryState) (g : Globals) :
    Bool × Globals :=
  snapLoop env r g r.snapshotCount 0

/-- `ConfigurationRecoverySystem::getDefaultBankConfig`. -/
def getDefaultBankConfig (bank : Nat) : KeyModeData × ControlChangeData :=
  ({ palette := bank, channel := 1, scale := 0, base_octave := 2, base_note := 0
     velocity_curve := 1, aftertouch_curve := 1, flip_x := 0, flip_y := 0
     koala_mode := 0, hasChanged := false },
   { channel := List.replicate 8 1
     id := (List.range 8).map (fun i => 13 + i)
     hasChanged := false })

/-- `ConfigurationRecoverySystem::tryFactoryRecovery`: reset the global
configuration and every bank to factory defaults, preserving or resetting
calibration, and always succeed. -/
def tryFactoryRecovery (preserveCalibration : Bool) (g : Globals) : Bool × Globals :=
  let savedCalibration := g.calibration_data
  let cfg : ConfigurationData :=
    { version := 102, mode := 0, sensitivity := 1, brightness := 6, palette := 0
      midi_trs := 0, trs_type := 0, passthrough := 0, midi_ble := 0
      custom_scale1 := (List.range 16).map Int.ofNat
      custom_scale2 := (List.range 16).map Int.ofNat
      hasChanged := true }
  let banks := (List.range 4).map getDefaultBankConfig
  let calibration := if preserveCalibration then savedCalibration
    else ({ minVal := List.replicate 16 0
            maxVal := List.replicate 16 4095 } : CalibrationData)
  (true, { cfg := cfg, calibration_data := calibration
           kb_cfg := banks.map Prod.fst, cc_cfg := banks.map Prod.snd })

/-- `ConfigurationRecoverySystem::attemptAutoRecovery(validation)`: the
escalation chain (parameter → snapshot → calibration-preserving factory),
updating `RecoveryStats` as the source does.  `now` models `millis()`. -/
def attemptAutoRecovery (env : ChkEnv) (validation : ValidationResult)
    (now : Nat) (r : RecoveryState) (g : Globals) :
    Bool × RecoveryState × Globals :=
  let r := { r with stats := { r.stats with
    totalRecoveries := r.stats.totalRecoveries + 1
    lastRecoveryTimestamp := now } }
  let p := tryParameterRecovery validation g
  if p.1 then
    (true, { r with stats := { r.stats with
      successfulRecoveries := r.stats.successfulRecoveries + 1
      lastRecoveryLevel := .PARAMETER_RESET } }, p.2)
  else
    let s := trySnapshotRecovery env r p.2
    if s.1 then
      (true, { r with stats := { r.stats with
        successfulRecoveries := r.stats.successfulRecoveries + 1
        lastRecoveryLevel := .RECOVERY_SNAPSHOT } }, s.2)
    else
      let f := tryFactoryRecovery true s.2
      if f.1 then
        (true, { r with stats := { r.stats with
          successfulRecoveries := r.stats.successfulRecoveries + 1
          lastRecoveryLevel := .CALIBRATION_PRESERVE } }, f.2)
      else
        (false, { r with stats := { r.stats with
          failedRecoveries := r.stats.failedRecoveries + 1 } }, f.2)

/-- Characterization (read off `tryParameterRecovery`'s cases) of the
errors that parameter recovery can act on: auto-fixable and naming one of
the handled parameters, with the bank (and for `cc_id` the index) in
range. -/
def paramRecoverable (e : ValidationErrorDetail) : Bool :=
  e.isAutoFixable &&
    match e.location.parameter with
    | some "mode" => true
    | some "sensitivity" => true
    | some "brightness" => true
    | some "channel" => decide (e.location.bank < 4)
    | some "scale" => decide (e.location.bank < 4)
    | some "cc_id" => decide (e.location.bank < 4 ∧ e.location.index < 8)
    | _ => false

/-- Test configuration whose only validation errors are auto-fixable
custom-scale-2 notes (entry 0 = 30 > 24). -/
def c4scaleConfig : ConfigurationData :=
  { version := 102, mode := 0, sensitivity := 1, brightness := 6, palette := 0
    midi_trs := 0, trs_type := 0, passthrough := 0, midi_ble := 0
    custom_scale1 := (List.range 16).map Int.ofNat
    custom_scale2 := 30 :: List.replicate 15 0
    hasChanged := false }

/-- Test globals with a non-factory brightness (9), to make a factory
overwrite observable. -/
def c4globals : Globals :=
  { cfg := { version := 102, mode := 0, sensitivity := 1, brightness := 9
             palette := 0, midi_trs := 0, trs_type := 0, passthrough := 0
             midi_ble := 0, custom_scale1 := (List.range 16).map Int.ofNat
             custom_scale2 := (List.range 16).map Int.ofNat, hasChanged := false }
    calibration_data := getFactoryCalibration
    kb_cfg := List.replicate 4 {}
    cc_cfg := List.replicate 4 {} }

/-- A validation result with a single auto-fixable error naming `mode`
(the shape `validateConfiguration`'s own mode check builds). -/
def c4modeResult : ValidationResult :=
  { isValid := false
    errors := [{ type := .OUT_OF_RANGE, location := { parameter := some "mode" }
                 currentValue := 7, validRangeMin := 0, validRangeMax := 4
                 isAutoFixable := true
                 suggestedFix := some "Reset to keyboard mode (0)" }]
    warnings := []
    suggestedFixes := ["Reset to keyboard mode (0)"] }

/-! ## ValidationBootManager (ValidationBootManager.hpp/.cpp) -/

/-- `BootState`. -/
inductive BootState
  | INIT
  | CHECKING_INTEGRITY
  | LOADING_CONFIG
  | VALIDATING_CONFIG
  | RECOVERING
  | READY
  | FAILED
  | SAFE_MODE
deriving DecidableEq

/-- `BootResult`. -/
inductive BootResult
  | SUCCESS
  | RECOVERED
  | SAFE_MODE_REQUIRED
  | CRITICAL_FAILURE
deriving DecidableEq

/-- The boot-statistics record persisted in `/boot_stats.dat`. -/
structure BootStats where
  bootCount : Nat
  failureCount : Nat
  lastSuccessfulBoot : Nat
deriving DecidableEq

/-- The external outcomes a boot sequence observes: filesystem mount,
the persisted statistics read, the data-integrity stage, the outcomes of
successive `attemptRecovery()` and `validateConfiguration()` calls
(indexed by call order), and the `millis()` value at the READY stage. -/
structure BootEnv where
  fsInitOk : Bool
  statsFile : Option BootStats
  integrityOk : Bool
  recoveryOk : Nat → Bool
  validateOk : Nat → Bool
  nowAtReady : Nat

/-- The boot manager's mutable state.  `visited` is an instrumentation
trace of the states passed to `updateBootState`; `savedStats` is the
sequence of records written by `saveBootStatistics`. -/
structure BootMgrState where
  inSafeMode : Bool := false
  bootCount : Nat := 0
  failureCount : Nat := 0
  lastSuccessfulBoot : Nat := 0
  bootState : BootState := .INIT
  recoveryAttempts : Nat := 0
  recoveryCalls : Nat := 0
  validateCalls : Nat := 0
  cfg : ConfigurationData := {}
  savedStats : List BootStats := []
  visited : List BootState := []

/-- `updateBootState`. -/
def updateBootState (m : BootMgrState) (s : BootState) : BootMgrState :=
  { m with bootState := s, visited := m.visited ++ [s] }

/-- `saveBootStatistics`: persist the current counters. -/
def saveBootStatisticsM (m : BootMgrState) : BootMgrState :=
  { m with savedStats := m.savedStats ++
      [{ bootCount := m.bootCount, failureCount := m.failureCount
         lastSuccessfulBoot := m.lastSuccessfulBoot }] }

/-- The minimal configuration installed by `enterSafeMode`:
`ConfigurationData{}` then version 102, mode 4 (quick settings),
sensitivity 1, brightness 3 (dim), MIDI TRS and BLE disabled. -/
def safeModeCfg : ConfigurationData :=
  { ({} : ConfigurationData) with
    version := 102, mode := 4, sensitivity := 1, brightness := 3
    midi_trs := 0, midi_ble := 0 }

/-- `ValidationBootManager::enterSafeMode`. -/
def enterSafeMode (m : BootMgrState) : BootMgrState :=
  { updateBootState m .SAFE_MODE with inSafeMode := true, cfg := safeModeCfg }

/-- `ValidationBootManager::attemptRecovery`: enters the RECOVERING state
and delegates to the recovery system, whose outcome is read from the
environment (indexed by call order). -/
def attemptRecoveryM (env : BootEnv) (m : BootMgrState) : Bool × BootMgrState :=
  let m := updateBootState m .RECOVERING
  (env.recoveryOk m.recoveryCalls, { m with recoveryCalls := m.recoveryCalls + 1 })

/-- `ValidationBootManager::loadConfiguration` ends in `return true`
unconditionally (it copies data from the protector into the globals). -/
def loadConfigurationOk : Bool := true

/-- One `validateConfiguration()` call of the boot manager, with its
outcome read from the environment. -/
def validateConfigurationM (env : BootEnv) (m : BootMgrState) : Bool × BootMgrState :=
  (env.validateOk m.validateCalls, { m with validateCalls := m.validateCalls + 1 })

/-- The tail of `performBootSequence` after the four stages: READY state,
record `lastSuccessfulBoot`, then either RECOVERED (stats saved as-is) or
SUCCESS (failure counter reset and saved only when it was nonzero). -/
def readyStage (env : BootEnv) (m : BootMgrState) : BootResult × BootMgrState :=
  let m := updateBootState m .READY
  let m := { m with lastSuccessfulBoot := env.nowAtReady }
  if m.recoveryAttempts > 0 then (BootResult.RECOVERED, saveBootStatisticsM m)
  else if m.failureCount > 0 then
    (BootResult.SUCCESS, saveBootStatisticsM { m with failureCount := 0 })
  else (BootResult.SUCCESS, m)

/-- Stage 4 (VALIDATING_CONFIG) of `performBootSequence`, including the
re-validation after a recovery; note the C++ has no `else` branch when
`recoveryAttempts` has already reached `MAX_RECOVERY_ATTEMPTS`, so a still
invalid configuration falls through to READY in that case. -/
def validateStage (env : BootEnv) (m : BootMgrState) : BootResult × BootMgrState :=
  let m := updateBootState m .VALIDATING_CONFIG
  let v1 := validateConfigurationM env m
  let m := v1.2
  if ¬v1.1 then
    if m.recoveryAttempts < 3 then
      let m := updateBootState m .RECOVERING
      let rec1 := attemptRecoveryM env m
      let m := rec1.2
      if rec1.1 then
        let m := { m with recoveryAttempts := m.recoveryAttempts + 1 }
        let v2 := validateConfigurationM env m
        let m := v2.2
        if ¬v2.1 then (BootResult.SAFE_MODE_REQUIRED, enterSafeMode m)
        else readyStage env m
      else (BootResult.SAFE_MODE_REQUIRED, enterSafeMode m)
    else readyStage env m
  else readyStage env m

/-- Stage 3 (LOADING_CONFIG) of `performBootSequence`.
`loadConfiguration()` cannot fail, so the failure branch of the source is
dead; it is reproduced here guarded by `loadConfigurationOk`. -/
def loadStage (env : BootEnv) (m : BootMgrState) : BootResult × BootMgrState :=
  let m := updateBootState m .LOADING_CONFIG
  if ¬loadConfigurationOk then
    let m := { m with failureCount := m.failureCount + 1 }
    if m.recoveryAttempts < 3 then
      let rec1 := attemptRecoveryM env m
      let m := rec1.2
      if rec1.1 then
        validateStage env { m with recoveryAttempts := m.recoveryAttempts + 1 }
      else (BootResult.SAFE_MODE_REQUIRED, enterSafeMode m)
    else (BootResult.SAFE_MODE_REQUIRED, enterSafeMode m)
  else validateStage env m

/-- Stage 2 (CHECKING_INTEGRITY) of `performBootSequence`. -/
def integrityStage (env : BootEnv) (m : BootMgrState) : BootResult × BootMgrState :=
  let m := updateBootState m .CHECKING_INTEGRITY
  if ¬env.integrityOk then
    let m := { m with failureCount := m.failureCount + 1 }
    let rec1 := attemptRecoveryM env m
    let m := rec1.2
    if rec1.1 then
      loadStage env { m with recoveryAttempts := m.recoveryAttempts + 1 }
    else (BootResult.SAFE_MODE_REQUIRED, enterSafeMode m)
  else loadStage env m

/-- `ValidationBootManager::performBootSequence`. -/
def performBootSequence (env : BootEnv) (m0 : BootMgrState) :
    BootResult × BootMgrState :=
  let m := { m0 with recoveryAttempts := 0, visited := [] }
  let m := updateBootState m .INIT
  if ¬env.fsInitOk then (BootResult.CRITICAL_FAILURE, m)
  else
    let m := match env.statsFile with
      | some s =>
        { m with
          bootCount := s.bootCount
          failureCount := s.failureCount
          lastSuccessfulBoot := s.lastSuccessfulBoot }
      | none => m
    let m := { m with bootCount := m.bootCount + 1 }
    if m.failureCount ≥ 5 then (BootResult.SAFE_MODE_REQUIRED, enterSafeMode m)
    else integrityStage env m

/-- Boot environment whose persisted statistics carry `failureCount = 5`. -/
def c6env : BootEnv :=
  { fsInitOk := true
    statsFile := some { bootCount := 7, failureCount := 5, lastSuccessfulBoot := 0 }
    integrityOk := true, recoveryOk := fun _ => false
    validateOk := fun _ => true, nowAtReady := 0 }

/-- Boot environment for a recovered boot: two prior failures persisted,
the integrity check fails once, recovery and validation succeed. -/
def c7env : BootEnv :=
  { fsInitOk := true
    statsFile := some { bootCount := 3, failureCount := 2, lastSuccessfulBoot := 0 }
    integrityOk := false, recoveryOk := fun _ => true
    validateOk := fun _ => true, nowAtReady := 1000 }

/-- Boot environment for a clean SUCCESS boot after two persisted
failures. -/
def c7okenv : BootEnv :=
  { fsInitOk := true
    statsFile := some { bootCount := 3, failureCount := 2, lastSuccessfulBoot := 0 }
    integrityOk := true, recoveryOk := fun _ => false
    validateOk := fun _ => true, nowAtReady := 77 }

/-! ## Theorems -/

namespace TripleRedundant

variable {T : Type} [DecidableEq T]

/-- Reading a freshly written cell returns the written value and leaves
the cell unchanged. -/
theorem getMajorityValue_setValue (chk : T → Nat) (d : T) (s : TripleRedundant T)
    (v : T) : getMajorityValue chk d (setValue chk s v) = (v, setValue chk s v) := by
  simp [getMajorityValue, setValue, updateChecksums, pValid, b1Valid, b2Valid]

/-- Reading a uniform, checksum-consistent cell returns its value and
leaves it unchanged. -/
theorem getMajorityValue_uniform (chk : T → Nat) (d : T) (s : TripleRedundant T)
    (h1 : s.backup1 = s.primary) (h2 : s.backup2 = s.primary)
    (hc1 : s.primaryChecksum = chk s.primary)
    (hc2 : s.backup1Checksum = chk s.backup1)
    (hc3 : s.backup2Checksum = chk s.backup2) :
    getMajorityValue chk d s = (s.primary, s) := by
  simp [getMajorityValue, pValid, b1Valid, b2Valid, h1, h2, hc1, hc2, hc3]

/-- `getMajorityValue` is idempotent: a second read returns the same value
and changes nothing further (self-healing reaches a fixed point in one
call). -/
theorem getMajorityValue_idem (chk : T → Nat) (d : T) (s : TripleRedundant T) :
    getMajorityValue chk d ((getMajorityValue chk d s).2) =
      ((getMajorityValue chk d s).1, (getMajorityValue chk d s).2) := by
  rcases hgs : getMajorityValue chk d s with ⟨val, s2⟩
  simp only
  unfold getMajorityValue at hgs
  by_cases h0 : (if pValid chk s then 1 else 0) + (if b1Valid chk s then 1 else 0) +
      (if b2Valid chk s then 1 else 0) = 0
  · rw [if_pos h0] at hgs
    injection hgs with hv hs2; subst hv; subst hs2
    simp only [getMajorityValue, if_pos h0]
  rw [if_neg h0] at hgs
  by_cases h1 : pValid chk s ∧ b1Valid chk s ∧ b2Valid chk s ∧
      s.primary = s.backup1 ∧ s.primary = s.backup2
  · rw [if_pos h1] at hgs
    injection hgs with hv hs2; subst hv; subst hs2
    simp only [getMajorityValue, if_neg h0, if_pos h1]
  rw [if_neg h1] at hgs
  by_cases h2 : pValid chk s ∧ b1Valid chk s ∧ s.primary = s.backup1
  · rw [if_pos h2] at hgs
    injection hgs with hv hs2; subst hv; subst hs2
    simp only [getMajorityValue, if_neg h0, if_neg h1, if_pos h2]
  rw [if_neg h2] at hgs
  by_cases h3 : pValid chk s ∧ b2Valid chk s ∧ s.primary = s.backup2
  · rw [if_pos h3] at hgs
    injection hgs with hv hs2; subst hv; subst hs2
    simp only [getMajorityValue, if_neg h0, if_neg h1, if_neg h2, if_pos h3]
  rw [if_neg h3] at hgs
  by_cases h4 : b1Valid chk s ∧ b2Valid chk s ∧ s.backup1 = s.backup2
  · rw [if_pos h4] at hgs
    injection hgs with hv hs2; subst hv; subst hs2
    simp only [getMajorityValue, if_neg h0, if_neg h1, if_neg h2, if_neg h3, if_pos h4]
  rw [if_neg h4] at hgs
  by_cases h5 : pValid chk s
  · rw [if_pos h5] at hgs
    injection hgs with hv hs2; subst hv; subst hs2
    exact getMajorityValue_uniform chk d _ rfl rfl rfl rfl rfl
  rw [if_neg h5] at hgs
  by_cases h6 : b1Valid chk s
  · rw [if_pos h6] at hgs
    injection hgs with hv hs2; subst hv; subst hs2
    exact getMajorityValue_uniform chk d _ rfl rfl rfl rfl rfl
  rw [if_neg h6] at hgs
  by_cases h7 : b2Valid chk s
  · rw [if_pos h7] at hgs
    injection hgs with hv hs2; subst hv; subst hs2
    exact getMajorityValue_uniform chk d _ rfl rfl rfl rfl rfl
  -- all three slots invalid contradicts a nonzero valid count
  exact absurd (by simp [if_neg h5, if_neg h6, if_neg h7]) h0

end TripleRedundant

/-- C1 (amended): after `setValue(v)`, corrupting exactly one of the three
slots (replacing its value and/or stored checksum so that the slot no
longer verifies) leaves `getMajorityValue() == v`, but the call does NOT
overwrite the corrupted slot: the two-valid majority paths return without
repair, so the corrupted slot's stored checksum still fails verification
on the next read.  (Repair only happens when exactly one slot is valid.) -/
theorem C1_no_repair_on_majority {T : Type} [DecidableEq T] (chk : T → Nat)
    (d : T) (s0 : TripleRedundant T) (v w : T) (c : Nat) (hn : c ≠ chk w) :
    TripleRedundant.getMajorityValue chk d
        (corruptPrimary (TripleRedundant.setValue chk s0 v) w c) =
      (v, corruptPrimary (TripleRedundant.setValue chk s0 v) w c) ∧
    TripleRedundant.getMajorityValue chk d
        (corruptBackup1 (TripleRedundant.setValue chk s0 v) w c) =
      (v, corruptBackup1 (TripleRedundant.setValue chk s0 v) w c) ∧
    TripleRedundant.getMajorityValue chk d
        (corruptBackup2 (TripleRedundant.setValue chk s0 v) w c) =
      (v, corruptBackup2 (TripleRedundant.setValue chk s0 v) w c) := by
  have hb : ¬(chk w = c) := fun h => hn h.symm
  refine ⟨?_, ?_, ?_⟩ <;>
    simp [TripleRedundant.getMajorityValue, TripleRedundant.setValue,
      TripleRedundant.updateChecksums, corruptPrimary, corruptBackup1,
      corruptBackup2, TripleRedundant.pValid, TripleRedundant.b1Valid,
      TripleRedundant.b2Valid, hb]

/-- Witness for C1_no_repair_on_majority: `chk = id`, value 7, backup2's
checksum replaced by 9 (≠ chk 7). -/
theorem C1_no_repair_on_majority_witness :
    (9 ≠ (fun n : Nat => n) 7) ∧
    (TripleRedundant.getMajorityValue (fun n : Nat => n) 0
        (corruptBackup2 (TripleRedundant.setValue (fun n : Nat => n)
          (TripleRedundant.init (fun n : Nat => n) 0) 7) 7 9) =
      (7, corruptBackup2 (TripleRedundant.setValue (fun n : Nat => n)
          (TripleRedundant.init (fun n : Nat => n) 0) 7) 7 9)) :=
  ⟨by decide,
   (C1_no_repair_on_majority (fun n : Nat => n) 0
      (TripleRedundant.init (fun n : Nat => n) 0) 7 7 9 (by decide)).2.2⟩

/-- C1 counterexample: with `chk = id`, after `setValue(7)` flip backup2's
stored checksum (8 instead of 7).  `getMajorityValue()` still returns 7,
but — contrary to the claim — it does not rewrite the corrupted slot: the
stored checksum of backup2 after the call still differs from a freshly
computed checksum of its value, so the very next read sees the same
corruption. -/
theorem C1_counterexample :
    (TripleRedundant.getMajorityValue (fun n : Nat => n) 0
        (corruptBackup2 (TripleRedundant.setValue (fun n : Nat => n)
          (TripleRedundant.init (fun n : Nat => n) 0) 7) 7 8)).1 = 7 ∧
    ¬((TripleRedundant.getMajorityValue (fun n : Nat => n) 0
        (corruptBackup2 (TripleRedundant.setValue (fun n : Nat => n)
          (TripleRedundant.init (fun n : Nat => n) 0) 7) 7 8)).2.backup2Checksum =
      (fun n : Nat => n)
        ((TripleRedundant.getMajorityValue (fun n : Nat => n) 0
          (corruptBackup2 (TripleRedundant.setValue (fun n : Nat => n)
            (TripleRedundant.init (fun n : Nat => n) 0) 7) 7 8)).2.backup2)) := by
  decide

/-- C8: when none of the three slots verifies against a freshly computed
checksum, `getMajorityValue()` returns the default `T{}` (and performs no
repair), and `isCorrupted()` is true. -/
theorem C8_triple_corruption {T : Type} [DecidableEq T] (chk : T → Nat)
    (d : T) (s : TripleRedundant T)
    (hp : chk s.primary ≠ s.primaryChecksum)
    (hb1 : chk s.backup1 ≠ s.backup1Checksum)
    (hb2 : chk s.backup2 ≠ s.backup2Checksum) :
    TripleRedundant.getMajorityValue chk d s = (d, s) ∧
    TripleRedundant.isCorrupted chk s = true := by
  simp [TripleRedundant.getMajorityValue, TripleRedundant.isCorrupted,
    TripleRedundant.pValid, TripleRedundant.b1Valid, TripleRedundant.b2Valid,
    hp, hb1, hb2]

/-- Witness for C8_triple_corruption: `chk = id` on a cell whose three
stored checksums are all 9 while the values are 1, 2, 3. -/
theorem C8_triple_corruption_witness :
    ((fun n : Nat => n) c8state.primary ≠ c8state.primaryChecksum ∧
     (fun n : Nat => n) c8state.backup1 ≠ c8state.backup1Checksum ∧
     (fun n : Nat => n) c8state.backup2 ≠ c8state.backup2Checksum) ∧
    (TripleRedundant.getMajorityValue (fun n : Nat => n) 0 c8state = (0, c8state) ∧
     TripleRedundant.isCorrupted (fun n : Nat => n) c8state = true) :=
  ⟨⟨by decide, by decide, by decide⟩,
   C8_triple_corruption (fun n : Nat => n) 0 c8state (by decide) (by decide)
     (by decide)⟩

/-- Errors already present survive a `calibStep`. -/
theorem calibStep_errors_mono (cal : CalibrationData) (i : Nat)
    (r : ValidationResult) (e : ValidationErrorDetail) (he : e ∈ r.errors) :
    e ∈ (calibStep cal i r).errors := by
  unfold calibStep
  dsimp only
  split_ifs <;>
    simp_all [ValidationResult.addError, ValidationResult.addWarning]

/-- Errors already present survive the whole calibration loop. -/
theorem calibLoop_errors_mono (cal : CalibrationData) :
    ∀ (fuel i : Nat) (r : ValidationResult) (e : ValidationErrorDetail),
      e ∈ r.errors → e ∈ (calibLoop cal fuel i r).errors := by
  intro fuel
  induction fuel with
  | zero => intro i r e he; exact he
  | succ n ih =>
    intro i r e he
    exact ih (i + 1) _ e (calibStep_errors_mono cal i r e he)

/-- A `min > max` pair at key `i` makes `calibStep` record the
non-auto-fixable inverted-calibration error. -/
theorem calibStep_mem_invErr (cal : CalibrationData) (i : Nat)
    (r : ValidationResult) (h : cal.minVal.getD i 0 > cal.maxVal.getD i 0) :
    calibInvErr cal i ∈ (calibStep cal i r).errors := by
  unfold calibStep calibInvErr
  dsimp only
  simp only [if_pos h]
  split_ifs <;>
    simp [ValidationResult.addError, ValidationResult.addWarning]

/-- A false `isValid` flag survives a `calibStep`. -/
theorem calibStep_isValid_false (cal : CalibrationData) (i : Nat)
    (r : ValidationResult) (h : r.isValid = false) :
    (calibStep cal i r).isValid = false := by
  unfold calibStep
  dsimp only
  split_ifs <;>
    simp_all [ValidationResult.addError, ValidationResult.addWarning]

/-- A `min > max` pair at key `i` forces `isValid = false` after its step. -/
theorem calibStep_invalid (cal : CalibrationData) (i : Nat)
    (r : ValidationResult) (h : cal.minVal.getD i 0 > cal.maxVal.getD i 0) :
    (calibStep cal i r).isValid = false := by
  unfold calibStep
  dsimp only
  simp only [if_pos h]
  split_ifs <;>
    simp [ValidationResult.addError, ValidationResult.addWarning]

/-- A false `isValid` flag survives the whole calibration loop. -/
theorem calibLoop_isValid_false (cal : CalibrationData) :
    ∀ (fuel i : Nat) (r : ValidationResult), r.isValid = false →
      (calibLoop cal fuel i r).isValid = false := by
  intro fuel
  induction fuel with
  | zero => intro i r h; exact h
  | succ n ih =>
    intro i r h
    exact ih (i + 1) _ (calibStep_isValid_false cal i r h)

/-- If key `i + k` (with `k < fuel`) has inverted bounds, the loop starting
at index `i` records the inverted-calibration error for it. -/
theorem calibLoop_mem_invErr (cal : CalibrationData) :
    ∀ (fuel k i : Nat) (r : ValidationResult), k < fuel →
      cal.minVal.getD (i + k) 0 > cal.maxVal.getD (i + k) 0 →
      calibInvErr cal (i + k) ∈ (calibLoop cal fuel i r).errors := by
  intro fuel
  induction fuel with
  | zero => intro k i r hk _h; exact absurd hk (Nat.not_lt_zero k)
  | succ n ih =>
    intro k i r hk h
    cases k with
    | zero =>
      exact calibLoop_errors_mono cal n (i + 1) _ _
        (calibStep_mem_invErr cal i r (by simpa using h))
    | succ k =>
      have h' : cal.minVal.getD ((i + 1) + k) 0 > cal.maxVal.getD ((i + 1) + k) 0 := by
        have : (i + 1) + k = i + (k + 1) := by omega
        rw [this]; exact h
      have := ih k (i + 1) (calibStep cal i r) (Nat.lt_of_succ_lt_succ hk) h'
      have heq : (i + 1) + k = i + (k + 1) := by omega
      rwa [heq] at this

/-- `calibStep` preserves the invariant "a nonempty error list implies
`isValid = false`". -/
theorem calibStep_validInv (cal : CalibrationData) (i : Nat)
    (r : ValidationResult) (h : r.errors ≠ [] → r.isValid = false) :
    (calibStep cal i r).errors ≠ [] → (calibStep cal i r).isValid = false := by
  unfold calibStep
  dsimp only
  split_ifs <;>
    simp_all [ValidationResult.addError, ValidationResult.addWarning]

/-- The calibration loop preserves the same invariant. -/
theorem calibLoop_validInv (cal : CalibrationData) :
    ∀ (fuel i : Nat) (r : ValidationResult),
      (r.errors ≠ [] → r.isValid = false) →
      ((calibLoop cal fuel i r).errors ≠ [] →
        (calibLoop cal fuel i r).isValid = false) := by
  intro fuel
  induction fuel with
  | zero => intro i r h; exact h
  | succ n ih =>
    intro i r h
    exact ih (i + 1) _ (calibStep_validInv cal i r h)

/-- An error that is not auto-fixable pins `canAutoFix` to false. -/
theorem canAutoFix_false_of_mem (r : ValidationResult)
    (e : ValidationErrorDetail) (he : e ∈ r.errors)
    (hfix : e.isAutoFixable = false) : r.canAutoFix = false := by
  unfold ValidationResult.canAutoFix
  have hall : r.errors.all (·.isAutoFixable) = false :=
    List.all_eq_false.mpr ⟨e, he, by simp [hfix]⟩
  simp [hall]

/-- C9: for every calibration with `minVal[i] > maxVal[i]` at some key
`i < 16`, `validateCalibrationData` reports an invalid result containing
an error located at parameter "calibration" index `i` that is not
auto-fixable (so `canAutoFix` is false and the inverted pair is never
auto-fixed through this path), at any validation context. -/
theorem C9_inverted_calibration (cal : CalibrationData)
    (context : ValidationContext) (i : Nat) (hi : i < 16)
    (h : cal.minVal.getD i 0 > cal.maxVal.getD i 0) :
    (validateCalibrationData cal context).isValid = false ∧
    (validateCalibrationData cal context).canAutoFix = false ∧
    ∃ e ∈ (validateCalibrationData cal context).errors,
      e.location.parameter = some "calibration" ∧ e.location.index = i ∧
      e.isAutoFixable = false := by
  have hbound : (min (match context.variant with
      | .T32 => 32 | .T64 => 64 | .T16 => 16) 16 : Nat) = 16 := by
    cases context.variant <;> decide
  have hmem : calibInvErr cal i ∈ (validateCalibrationData cal context).errors := by
    unfold validateCalibrationData
    dsimp only
    rw [hbound]
    simpa using calibLoop_mem_invErr cal 16 i 0 {} hi (by simpa using h)
  refine ⟨?_, ?_, calibInvErr cal i, hmem, rfl, rfl, rfl⟩
  · -- a nonempty error list keeps isValid pinned to false
    have hne : (validateCalibrationData cal context).errors ≠ [] :=
      List.ne_nil_of_mem hmem
    unfold validateCalibrationData at hne ⊢
    dsimp only at hne ⊢
    rw [hbound] at hne ⊢
    exact calibLoop_validInv cal 16 0 {} (by simp) hne
  · exact canAutoFix_false_of_mem _ _ hmem rfl

/-- Witness for C9_inverted_calibration: key 0 of `c9cal` has min 5 > max
0, at the default context. -/
theorem C9_inverted_calibration_witness :
    (0 < 16 ∧ c9cal.minVal.getD 0 0 > c9cal.maxVal.getD 0 0) ∧
    ((validateCalibrationData c9cal {}).isValid = false ∧
     (validateCalibrationData c9cal {}).canAutoFix = false ∧
     ∃ e ∈ (validateCalibrationData c9cal {}).errors,
       e.location.parameter = some "calibration" ∧ e.location.index = 0 ∧
       e.isAutoFixable = false) :=
  ⟨⟨by decide, by decide⟩,
   C9_inverted_calibration c9cal {} 0 (by decide) (by decide)⟩

/-- At any level other than BASIC, `validateConfiguration` returns exactly
the result of validating `custom_scale2`: the two final C++ assignments
`result = validateCustomScale(...)` discard everything accumulated before
them. -/
theorem validateConfiguration_nonbasic (config : ConfigurationData)
    (context : ValidationContext) (h : context.level ≠ .BASIC) :
    validateConfiguration config context =
      validateCustomScale config.custom_scale2 2 context := by
  unfold validateConfiguration
  rw [if_neg h]

/-- One `scaleStep` keeps every recorded error auto-fixable. -/
theorem scaleStep_all_fixable (scale : List Int) (n i : Nat)
    (r : ValidationResult) (h : r.errors.all (·.isAutoFixable) = true) :
    (scaleStep scale n r i).errors.all (·.isAutoFixable) = true := by
  unfold scaleStep
  dsimp only
  split_ifs <;> simp_all [ValidationResult.addError]

/-- The custom-scale note loop keeps every recorded error auto-fixable. -/
theorem scaleFoldl_all_fixable (scale : List Int) (n : Nat) :
    ∀ (l : List Nat) (r : ValidationResult),
      r.errors.all (·.isAutoFixable) = true →
      ((l.foldl (scaleStep scale n) r).errors.all (·.isAutoFixable)) = true := by
  intro l
  induction l with
  | nil => intro r h; exact h
  | cons a as ih =>
    intro r h
    exact ih _ (scaleStep_all_fixable scale n a r h)

/-- Every error `validateCustomScale` can report is auto-fixable. -/
theorem validateCustomScale_all_fixable (scale : List Int) (n : Nat)
    (context : ValidationContext) :
    (validateCustomScale scale n context).errors.all (·.isAutoFixable) = true := by
  unfold validateCustomScale
  split_ifs
  · rfl
  · exact scaleFoldl_all_fixable scale n (List.range 16) {} rfl

/-- C3 (code-bug evidence): `c3config` has `mode = 5 > 4`, yet at the
STANDARD level `validateConfiguration` reports it fully valid with an
empty error list (and likewise no errors at COMPREHENSIVE): the two final
`result = validateCustomScale(...)` assignments overwrite the accumulated
range errors, so the promised OUT_OF_RANGE error for `mode` never reaches
the caller. -/
theorem C3_code_evaluation :
    c3config.mode > 4 ∧
    (validateConfiguration c3config
      { variant := .T16, firmwareVersion := 102, strictMode := true
        level := .STANDARD }).isValid = true ∧
    (validateConfiguration c3config
      { variant := .T16, firmwareVersion := 102, strictMode := true
        level := .STANDARD }).errors = [] ∧
    (validateConfiguration c3config
      { variant := .T16, firmwareVersion := 102, strictMode := true
        level := .COMPREHENSIVE }).errors = [] := by
  decide

/-- Reading the configuration after writing a cell with `setValue` yields
exactly the written value. -/
theorem getConfiguration_setValue (env : ChkEnv) (st : CriticalData)
    (c : TripleRedundant ConfigurationData) (v : ConfigurationData) :
    (getConfiguration env { st with configuration := c.setValue env.cfg v }).1 = v := by
  simp [getConfiguration, TripleRedundant.getMajorityValue_setValue]

/-- A second configuration read returns the same value as the first. -/
theorem getConfiguration_idem (env : ChkEnv) (st : CriticalData) :
    (getConfiguration env ((getConfiguration env st).2)).1 =
      (getConfiguration env st).1 := by
  have h := TripleRedundant.getMajorityValue_idem env.cfg ({} : ConfigurationData)
    st.configuration
  simp only [getConfiguration]
  rw [h]

/-- The configuration value read after a transaction's construction equals
the snapshot the transaction captured (construction reads configuration,
then calibration, which does not touch the configuration cell). -/
theorem getConfiguration_beginTransaction (env : ChkEnv) (st : CriticalData) :
    (getConfiguration env (beginTransaction env st).2).1 =
      (getConfiguration env st).1 := by
  show (getConfiguration env ((getConfiguration env st).2)).1 =
    (getConfiguration env st).1
  exact getConfiguration_idem env st

/-- `updateConfiguration` either leaves the transaction and the cells
untouched (rejection paths; only the firmware-version cell may have been
refreshed by `getCurrentContext`) or marks the transaction modified and
replaces the configuration cell with a `setValue` of some candidate. -/
theorem updateConfiguration_shape (env : ChkEnv) (t : ConfigurationTransaction)
    (st : CriticalData) (cand : ConfigurationData) :
    (ConfigurationTransaction.updateConfiguration env t st cand).2 =
      (t, (getCurrentContext env st).2) ∨
    ∃ v, (ConfigurationTransaction.updateConfiguration env t st cand).2 =
      ({ t with configModified := true },
       { (getCurrentContext env st).2 with configuration :=
           (getCurrentContext env st).2.configuration.setValue env.cfg v }) := by
  unfold ConfigurationTransaction.updateConfiguration
  dsimp only
  split_ifs <;> first
    | exact Or.inl rfl
    | exact Or.inr ⟨_, rfl⟩

/-- C2 (amended): at any level other than BASIC — in particular at the
COMPREHENSIVE level every transaction uses — the validator's returned
result contains only auto-fixable errors (the final custom-scale
assignments discard all other checks), so `updateConfiguration` never
observes a non-auto-fixable error; and the scoped-destruction contract
holds: after `updateConfiguration` (whatever its outcome) and destruction
without `commit()`, `getConfiguration()` equals the configuration captured
at the transaction's construction. -/
theorem C2_rollback (env : ChkEnv) (st : CriticalData) (cand : ConfigurationData)
    (context : ValidationContext) (h : context.level ≠ .BASIC) :
    (validateConfiguration cand context).errors.all (·.isAutoFixable) = true ∧
    (getConfiguration env
        (ConfigurationTransaction.destroy env
          (ConfigurationTransaction.updateConfiguration env
            (beginTransaction env st).1 (beginTransaction env st).2 cand).2.1
          (ConfigurationTransaction.updateConfiguration env
            (beginTransaction env st).1 (beginTransaction env st).2 cand).2.2)).1 =
      (getConfiguration env st).1 := by
  constructor
  · rw [validateConfiguration_nonbasic cand context h]
    exact validateCustomScale_all_fixable _ 2 context
  · rcases updateConfiguration_shape env (beginTransaction env st).1
      (beginTransaction env st).2 cand with hsh | ⟨v, hsh⟩
    · rw [hsh]
      -- untouched: the destructor's rollback is a no-op
      have hd : ConfigurationTransaction.destroy env (beginTransaction env st).1
          (getCurrentContext env (beginTransaction env st).2).2 =
          (getCurrentContext env (beginTransaction env st).2).2 := by
        simp [ConfigurationTransaction.destroy, ConfigurationTransaction.rollback,
          beginTransaction]
      rw [hd]
      exact getConfiguration_beginTransaction env st
    · rw [hsh]
      -- modified: the destructor writes the snapshot back
      have hd : ConfigurationTransaction.destroy env
          { (beginTransaction env st).1 with configModified := true }
          { (getCurrentContext env (beginTransaction env st).2).2 with
            configuration := (getCurrentContext env
              (beginTransaction env st).2).2.configuration.setValue env.cfg v } =
          { (getCurrentContext env (beginTransaction env st).2).2 with
            configuration := ((getCurrentContext env
              (beginTransaction env st).2).2.configuration.setValue env.cfg v).setValue
                env.cfg (beginTransaction env st).1.originalConfig } := by
        simp [ConfigurationTransaction.destroy, ConfigurationTransaction.rollback,
          beginTransaction]
      rw [hd]
      rw [getConfiguration_setValue]
      rfl

/-- Witness for C2_rollback: the factory protector state, the factory
configuration as candidate, and the default (COMPREHENSIVE) context. -/
theorem C2_rollback_witness :
    (({} : ValidationContext).level ≠ ValidationLevel.BASIC) ∧
    ((validateConfiguration getFactoryConfiguration {}).errors.all
        (·.isAutoFixable) = true ∧
     (getConfiguration zeroChk
        (ConfigurationTransaction.destroy zeroChk
          (ConfigurationTransaction.updateConfiguration zeroChk
            (beginTransaction zeroChk (protectorInit zeroChk)).1
            (beginTransaction zeroChk (protectorInit zeroChk)).2
            getFactoryConfiguration).2.1
          (ConfigurationTransaction.updateConfiguration zeroChk
            (beginTransaction zeroChk (protectorInit zeroChk)).1
            (beginTransaction zeroChk (protectorInit zeroChk)).2
            getFactoryConfiguration).2.2)).1 =
      (getConfiguration zeroChk (protectorInit zeroChk)).1) :=
  ⟨by decide,
   C2_rollback zeroChk (protectorInit zeroChk) getFactoryConfiguration {}
     (by decide)⟩

/-- Reading the calibration after writing its cell with `setValue` yields
exactly the written value. -/
theorem getCalibration_setValue (env : ChkEnv) (st : CriticalData)
    (c : TripleRedundant CalibrationData) (v : CalibrationData) :
    (getCalibration env { st with calibration := c.setValue env.cal v }).1 = v := by
  simp [getCalibration, TripleRedundant.getMajorityValue_setValue]

/-- Reading the device serial after writing its cell with `setValue`
yields exactly the written value. -/
theorem getDeviceSerial_setValue (env : ChkEnv) (st : CriticalData)
    (c : TripleRedundant Nat) (v : Nat) :
    (getDeviceSerial env { st with deviceSerial := c.setValue env.u32 v }).1 = v := by
  simp [getDeviceSerial, TripleRedundant.getMajorityValue_setValue]

/-- Reading the firmware version after writing its cell with `setValue`
yields exactly the written value. -/
theorem getFirmwareVersion_setValue (env : ChkEnv) (st : CriticalData)
    (c : TripleRedundant Nat) (v : Nat) :
    (getFirmwareVersion env { st with firmwareVersion := c.setValue env.u8 v }).1 = v := by
  simp [getFirmwareVersion, TripleRedundant.getMajorityValue_setValue]

/-- C10: for both values of `preserveCalibration`, `factoryReset` leaves
the stored device serial at the value read just before the reset, always
sets the stored firmware version to 102, always replaces the stored
configuration with the factory configuration, and replaces the stored
calibration with the factory calibration exactly when `preserveCalibration`
is false (when true it re-stores the calibration read from the cell). -/
theorem C10_factory_reset_frame (env : ChkEnv) (st : CriticalData)
    (preserve : Bool) :
    (getDeviceSerial env (factoryReset env st preserve)).1 =
      (getDeviceSerial env st).1 ∧
    (getFirmwareVersion env (factoryReset env st preserve)).1 = 102 ∧
    (getConfiguration env (factoryReset env st preserve)).1 =
      getFactoryConfiguration ∧
    (getCalibration env (factoryReset env st preserve)).1 =
      (if preserve then (getCalibration env st).1 else getFactoryCalibration) := by
  refine ⟨?_, ?_, ?_, ?_⟩
  · cases preserve <;>
      simp [factoryReset, getDeviceSerial, updateStructureChecksum, getCalibration,
        TripleRedundant.getMajorityValue_setValue]
  · cases preserve <;>
      simp [factoryReset, getFirmwareVersion, updateStructureChecksum, getCalibration,
        getDeviceSerial, TripleRedundant.getMajorityValue_setValue]
  · cases preserve <;>
      simp [factoryReset, getConfiguration, updateStructureChecksum, getCalibration,
        getDeviceSerial, TripleRedundant.getMajorityValue_setValue]
  · cases preserve <;>
      simp [factoryReset, getCalibration, updateStructureChecksum, getDeviceSerial,
        TripleRedundant.getMajorityValue_setValue]

/-- C5 (code-bug evidence): with the primary and second backup files
unreadable and the first backup carrying an intact magic but a structure
checksum inconsistent with its own contents, `loadCriticalData` still
succeeds and installs that backup: backups are checked against the magic
only, and the primary's "structure checksum check" inspects the in-memory
member instead of the copy just read. -/
theorem C5_code_evaluation :
    c5backup.magic = 0x54313643 ∧
    zeroChk.struc c5backup.cells ≠ c5backup.structureChecksum ∧
    loadCriticalData zeroChk (protectorInit zeroChk) none (some c5backup) none =
      (true, c5backup) := by
  decide

/-- A `paramStep` from a succeeded accumulator stays succeeded. -/
theorem paramStep_fst_true (g : Globals) (e : ValidationErrorDetail) :
    (paramStep (true, g) e).1 = true := by
  unfold paramStep
  dsimp only
  cases hfa : e.isAutoFixable with
  | false => simp [hfa]
  | true =>
    rw [if_neg (by simp [hfa])]
    split <;> first | rfl | (split_ifs <;> rfl)

/-- The error fold keeps a succeeded accumulator succeeded. -/
theorem paramFoldl_fst_true :
    ∀ (l : List ValidationErrorDetail) (acc : Bool × Globals), acc.1 = true →
      (l.foldl paramStep acc).1 = true := by
  intro l
  induction l with
  | nil => intro acc h; exact h
  | cons a as ih =>
    intro acc h
    obtain ⟨b, g⟩ := acc
    cases h
    exact ih _ (paramStep_fst_true g a)

/-- An error satisfying `paramRecoverable` makes its `paramStep` succeed. -/
theorem paramStep_recoverable (acc : Bool × Globals) (e : ValidationErrorDetail)
    (h : paramRecoverable e = true) : (paramStep acc e).1 = true := by
  obtain ⟨b, g⟩ := acc
  have hf : e.isAutoFixable = true := by
    cases hfa : e.isAutoFixable
    · rw [paramRecoverable, hfa] at h; simp at h
    · rfl
  rw [paramRecoverable, hf, Bool.true_and] at h
  unfold paramStep
  dsimp only
  rw [if_neg (by simp [hf])]
  split at h <;> simp_all

/-- A recoverable error anywhere in the list makes the fold succeed. -/
theorem paramFoldl_any :
    ∀ (l : List ValidationErrorDetail) (acc : Bool × Globals),
      l.any paramRecoverable = true → (l.foldl paramStep acc).1 = true := by
  intro l
  induction l with
  | nil => intro acc h; simp at h
  | cons a as ih =>
    intro acc h
    rw [List.any_cons] at h
    rcases Bool.or_eq_true_iff.mp h with ha | has
    · exact paramFoldl_fst_true as _ (paramStep_recoverable acc a ha)
    · exact ih _ has

/-- `paramStep` never touches the calibration global. -/
theorem paramStep_calibration (acc : Bool × Globals) (e : ValidationErrorDetail) :
    (paramStep acc e).2.calibration_data = acc.2.calibration_data := by
  obtain ⟨b, g⟩ := acc
  unfold paramStep
  dsimp only
  cases hfa : e.isAutoFixable with
  | false => simp [hfa]
  | true =>
    rw [if_neg (by simp [hfa])]
    split <;> first | rfl | (split_ifs <;> rfl)

/-- Neither does the whole error fold. -/
theorem paramFoldl_calibration :
    ∀ (l : List ValidationErrorDetail) (acc : Bool × Globals),
      (l.foldl paramStep acc).2.calibration_data = acc.2.calibration_data := by
  intro l
  induction l with
  | nil => intro acc; rfl
  | cons a as ih =>
    intro acc
    rw [List.foldl_cons, ih (paramStep acc a)]
    exact paramStep_calibration acc a

/-- `tryParameterRecovery` succeeds whenever some error is recoverable. -/
theorem tryParameterRecovery_any (validation : ValidationResult) (g : Globals)
    (h : validation.errors.any paramRecoverable = true) :
    (tryParameterRecovery validation g).1 = true := by
  unfold tryParameterRecovery
  dsimp only
  rw [if_pos (paramFoldl_any validation.errors (false, g) h)]

/-- `tryParameterRecovery` never touches the calibration global. -/
theorem tryParameterRecovery_calibration (validation : ValidationResult)
    (g : Globals) :
    (tryParameterRecovery validation g).2.calibration_data = g.calibration_data := by
  unfold tryParameterRecovery
  dsimp only
  split_ifs <;>
    simpa using paramFoldl_calibration validation.errors (false, g)

/-- C4 (amended): `attemptAutoRecovery` stops at the first (parameter
recovery) level exactly on results containing at least one auto-fixable
error that names a parameter `tryParameterRecovery` handles; it then
records the PARAMETER_RESET level, leaves the globals exactly as parameter
recovery wrote them (no snapshot apply, no factory reset), and the
calibration global is untouched. -/
theorem C4_parameter_recovery (env : ChkEnv) (validation : ValidationResult)
    (now : Nat) (r : RecoveryState) (g : Globals)
    (h : validation.errors.any paramRecoverable = true) :
    (attemptAutoRecovery env validation now r g).1 = true ∧
    (attemptAutoRecovery env validation now r g).2.1.stats.lastRecoveryLevel =
      RecoveryLevel.PARAMETER_RESET ∧
    (attemptAutoRecovery env validation now r g).2.2 =
      (tryParameterRecovery validation g).2 ∧
    (attemptAutoRecovery env validation now r g).2.2.calibration_data =
      g.calibration_data := by
  have hp := tryParameterRecovery_any validation g h
  unfold attemptAutoRecovery
  dsimp only
  rw [if_pos hp]
  exact ⟨rfl, rfl, rfl, tryParameterRecovery_calibration validation g⟩

/-- Witness for C4_parameter_recovery: a single auto-fixable `mode` error. -/
theorem C4_parameter_recovery_witness :
    (c4modeResult.errors.any paramRecoverable = true) ∧
    ((attemptAutoRecovery zeroChk c4modeResult 0 {} c4globals).1 = true ∧
     (attemptAutoRecovery zeroChk c4modeResult 0 {} c4globals).2.1.stats.lastRecoveryLevel =
       RecoveryLevel.PARAMETER_RESET ∧
     (attemptAutoRecovery zeroChk c4modeResult 0 {} c4globals).2.2 =
       (tryParameterRecovery c4modeResult c4globals).2 ∧
     (attemptAutoRecovery zeroChk c4modeResult 0 {} c4globals).2.2.calibration_data =
       c4globals.calibration_data) :=
  ⟨by decide, C4_parameter_recovery zeroChk c4modeResult 0 {} c4globals (by decide)⟩

/-- C4 counterexample: a nonempty validation result whose errors are ALL
auto-fixable (custom-scale-2 notes, produced by the validator itself), on
which `attemptAutoRecovery` does NOT succeed at the parameter level:
parameter recovery recognizes none of the named parameters, snapshot
recovery has nothing to apply, and the escalation ends in the
calibration-preserving factory reset (level CALIBRATION_PRESERVE), which
rewrites the global configuration. -/
theorem C4_counterexample :
    (validateConfiguration c4scaleConfig {}).errors ≠ [] ∧
    (validateConfiguration c4scaleConfig {}).errors.all (·.isAutoFixable) = true ∧
    (attemptAutoRecovery zeroChk (validateConfiguration c4scaleConfig {}) 0 {}
        c4globals).1 = true ∧
    (attemptAutoRecovery zeroChk (validateConfiguration c4scaleConfig {}) 0 {}
        c4globals).2.1.stats.lastRecoveryLevel = RecoveryLevel.CALIBRATION_PRESERVE ∧
    (attemptAutoRecovery zeroChk (validateConfiguration c4scaleConfig {}) 0 {}
        c4globals).2.2.cfg.brightness ≠ c4globals.cfg.brightness := by
  decide

/-- C6: whenever the persisted failure counter read at boot has reached
MAX_BOOT_FAILURES (5) and the filesystem mounted, `performBootSequence`
returns SAFE_MODE_REQUIRED having visited only the INIT and SAFE_MODE
states — it never enters the LOADING_CONFIG or VALIDATING_CONFIG stages —
and the live configuration afterwards is the hard-coded safe-mode
configuration: mode 4, brightness 3, MIDI TRS and BLE disabled. -/
theorem C6_safe_mode_boot (env : BootEnv) (m0 : BootMgrState) (s : BootStats)
    (hfs : env.fsInitOk = true) (hstats : env.statsFile = some s)
    (hfail : 5 ≤ s.failureCount) :
    (performBootSequence env m0).1 = BootResult.SAFE_MODE_REQUIRED ∧
    (performBootSequence env m0).2.visited = [BootState.INIT, BootState.SAFE_MODE] ∧
    BootState.LOADING_CONFIG ∉ (performBootSequence env m0).2.visited ∧
    BootState.VALIDATING_CONFIG ∉ (performBootSequence env m0).2.visited ∧
    (performBootSequence env m0).2.cfg.mode = 4 ∧
    (performBootSequence env m0).2.cfg.brightness = 3 ∧
    (performBootSequence env m0).2.cfg.midi_trs = 0 ∧
    (performBootSequence env m0).2.cfg.midi_ble = 0 := by
  have hkey : performBootSequence env m0 =
      (BootResult.SAFE_MODE_REQUIRED,
        enterSafeMode (updateBootState
          { ({ m0 with recoveryAttempts := 0, visited := [] } : BootMgrState) with
            bootCount := s.bootCount + 1, failureCount := s.failureCount
            lastSuccessfulBoot := s.lastSuccessfulBoot } BootState.INIT)) := by
    unfold performBootSequence
    rw [hstats]
    dsimp only
    rw [if_neg (by simp [hfs]), if_pos hfail]
    rfl
  rw [hkey]
  refine ⟨rfl, rfl, ?_, ?_, rfl, rfl, rfl, rfl⟩
  · show BootState.LOADING_CONFIG ∉ [BootState.INIT, BootState.SAFE_MODE]
    decide
  · show BootState.VALIDATING_CONFIG ∉ [BootState.INIT, BootState.SAFE_MODE]
    decide

/-- Witness for C6_safe_mode_boot: `c6env` persists `failureCount = 5`. -/
theorem C6_safe_mode_boot_witness :
    (c6env.fsInitOk = true ∧
     c6env.statsFile =
       some { bootCount := 7, failureCount := 5, lastSuccessfulBoot := 0 } ∧
     5 ≤ (5 : Nat)) ∧
    ((performBootSequence c6env {}).1 = BootResult.SAFE_MODE_REQUIRED ∧
     (performBootSequence c6env {}).2.visited =
       [BootState.INIT, BootState.SAFE_MODE] ∧
     BootState.LOADING_CONFIG ∉ (performBootSequence c6env {}).2.visited ∧
     BootState.VALIDATING_CONFIG ∉ (performBootSequence c6env {}).2.visited ∧
     (performBootSequence c6env {}).2.cfg.mode = 4 ∧
     (performBootSequence c6env {}).2.cfg.brightness = 3 ∧
     (performBootSequence c6env {}).2.cfg.midi_trs = 0 ∧
     (performBootSequence c6env {}).2.cfg.midi_ble = 0) :=
  ⟨⟨rfl, rfl, by decide⟩,
   C6_safe_mode_boot c6env {}
     { bootCount := 7, failureCount := 5, lastSuccessfulBoot := 0 } rfl rfl
     (by decide)⟩

/-- Every run of the READY tail records `lastSuccessfulBoot`, and on the
SUCCESS outcome its failure counter is 0. -/
theorem readyStage_spec (env : BootEnv) (m : BootMgrState) :
    (readyStage env m).2.lastSuccessfulBoot = env.nowAtReady ∧
    ((readyStage env m).1 = BootResult.SUCCESS →
      (readyStage env m).2.failureCount = 0) := by
  unfold readyStage
  dsimp only
  split_ifs with h1 h2
  · exact ⟨rfl, by intro hc; exact absurd hc (by simp)⟩
  · exact ⟨rfl, fun _ => rfl⟩
  · refine ⟨rfl, fun _ => ?_⟩
    simpa [updateBootState] using Nat.eq_zero_of_not_pos h2

/-- The validation stage either reaches the READY tail or enters safe
mode. -/
theorem validateStage_shape (env : BootEnv) (m : BootMgrState) :
    (∃ m2, validateStage env m = readyStage env m2) ∨
    (validateStage env m).1 = BootResult.SAFE_MODE_REQUIRED := by
  unfold validateStage
  dsimp only
  split_ifs <;> first
    | exact Or.inl ⟨_, rfl⟩
    | exact Or.inr rfl

/-- The loading stage either reaches the READY tail or enters safe mode. -/
theorem loadStage_shape (env : BootEnv) (m : BootMgrState) :
    (∃ m2, loadStage env m = readyStage env m2) ∨
    (loadStage env m).1 = BootResult.SAFE_MODE_REQUIRED := by
  unfold loadStage
  dsimp only
  split_ifs <;> first
    | exact validateStage_shape env _
    | exact Or.inr rfl

/-- The integrity stage either reaches the READY tail or enters safe
mode. -/
theorem integrityStage_shape (env : BootEnv) (m : BootMgrState) :
    (∃ m2, integrityStage env m = readyStage env m2) ∨
    (integrityStage env m).1 = BootResult.SAFE_MODE_REQUIRED := by
  unfold integrityStage
  dsimp only
  split_ifs <;> first
    | exact loadStage_shape env _
    | exact Or.inr rfl

/-- `performBootSequence` either ends in the READY tail or returns
SAFE_MODE_REQUIRED / CRITICAL_FAILURE. -/
theorem performBootSequence_shape (env : BootEnv) (m0 : BootMgrState) :
    (∃ m, performBootSequence env m0 = readyStage env m) ∨
    (performBootSequence env m0).1 = BootResult.SAFE_MODE_REQUIRED ∨
    (performBootSequence env m0).1 = BootResult.CRITICAL_FAILURE := by
  unfold performBootSequence
  dsimp only
  split_ifs
  · exact Or.inr (Or.inl rfl)
  · rcases integrityStage_shape env _ with h | h
    · exact Or.inl h
    · exact Or.inr (Or.inl h)
  · exact Or.inr (Or.inr rfl)

/-- C7 (amended): whenever `performBootSequence` reaches the terminal
READY state (returns SUCCESS or RECOVERED), `lastSuccessfulBoot` is
recorded; the failure counter is reset to 0 only on SUCCESS — a RECOVERED
boot persists its (possibly incremented) failure counter without resetting
it. -/
theorem C7_ready_stats (env : BootEnv) (m0 : BootMgrState)
    (h : (performBootSequence env m0).1 = BootResult.SUCCESS ∨
      (performBootSequence env m0).1 = BootResult.RECOVERED) :
    (performBootSequence env m0).2.lastSuccessfulBoot = env.nowAtReady ∧
    ((performBootSequence env m0).1 = BootResult.SUCCESS →
      (performBootSequence env m0).2.failureCount = 0) := by
  rcases performBootSequence_shape env m0 with ⟨m, hm⟩ | hres | hres
  · rw [hm]
    exact readyStage_spec env m
  · rcases h with hsucc | hrec
    · rw [hres] at hsucc; exact absurd hsucc (by decide)
    · rw [hres] at hrec; exact absurd hrec (by decide)
  · rcases h with hsucc | hrec
    · rw [hres] at hsucc; exact absurd hsucc (by decide)
    · rw [hres] at hrec; exact absurd hrec (by decide)

/-- Witness for C7_ready_stats: a clean boot with two persisted failures
returns SUCCESS with the counter reset and the boot time recorded. -/
theorem C7_ready_stats_witness :
    ((performBootSequence c7okenv {}).1 = BootResult.SUCCESS ∨
     (performBootSequence c7okenv {}).1 = BootResult.RECOVERED) ∧
    ((performBootSequence c7okenv {}).2.lastSuccessfulBoot = c7okenv.nowAtReady ∧
     ((performBootSequence c7okenv {}).1 = BootResult.SUCCESS →
       (performBootSequence c7okenv {}).2.failureCount = 0)) :=
  ⟨Or.inl rfl, C7_ready_stats c7okenv {} (Or.inl rfl)⟩

/-- C7 counterexample: a boot whose integrity check fails once and whose
recovery succeeds returns RECOVERED through the READY state, but the
persisted failure counter is 3 — incremented, saved, and NOT reset to 0 as
the claim requires for every READY outcome. -/
theorem C7_counterexample :
    (performBootSequence c7env {}).1 = BootResult.RECOVERED ∧
    (performBootSequence c7env {}).2.failureCount = 3 ∧
    (performBootSequence c7env {}).2.savedStats =
      [{ bootCount := 4, failureCount := 3, lastSuccessfulBoot := 1000 }] := by
  refine ⟨rfl, rfl, rfl⟩

/-- C2 counterexample: the candidate `c2cand` carries an error the
validator itself marks non-auto-fixable (FIRMWARE_TOO_OLD at its BASIC
level), yet `updateConfiguration` on a factory protector returns true and
replaces the stored configuration — it does not "return false and leave
the configuration unchanged", because the transaction's COMPREHENSIVE-level
validation result only ever contains auto-fixable custom-scale errors. -/
theorem C2_counterexample :
    ((validateConfiguration c2cand
        { variant := .T16, firmwareVersion := 102, strictMode := true
          level := .BASIC }).errors.any (fun e => !e.isAutoFixable)) = true ∧
    (ConfigurationTransaction.updateConfiguration zeroChk
        (beginTransaction zeroChk (protectorInit zeroChk)).1
        (beginTransaction zeroChk (protectorInit zeroChk)).2 c2cand).1 = true ∧
    (getConfiguration zeroChk
        (ConfigurationTransaction.updateConfiguration zeroChk
          (beginTransaction zeroChk (protectorInit zeroChk)).1
          (beginTransaction zeroChk (protectorInit zeroChk)).2 c2cand).2.2).1 ≠
      (getConfiguration zeroChk (protectorInit zeroChk)).1 := by
  decide

end T16
